import Mathlib

/-!
Verification development for the gameplay-state engine of the
Liquid-Left interactive narrative experience.

The engine is a single mutable store holding the full level state
(current level, puzzle nodes, connections, environment features,
per-mechanic counters and the completion flag) together with the
public operations the rendering/input layer calls into it
(connection building, bubble popping, fragment absorption, growth,
leaf healing, rain timing, vehicle selection, level transitions).

Embedding conventions:
* JavaScript numbers are modelled as exact rationals.
* Angles that the source expresses as multiples of pi are kept
  symbolically as a rational part plus a pi-coefficient, so that
  all state remains decidable.
* `Math.random()` is modelled by an explicit oracle `rho : Nat -> Rat`;
  each generator consumes oracle values at fixed indices mirroring
  the call order in the source.  No verified property depends on the
  drawn values.
* The `setInterval` callback started by `triggerRain` is modelled by
  an explicit `rainTick` action; the closure-local latch
  `hasTriggeredExtinguish`, the liveness of the interval and the
  number of `playSunExtinguish` calls are carried in a thin wrapper
  (`Sys`) around the store state.
-/

namespace LiquidLeft

/-- A 3-component vector of exact rationals (models both `THREE.Vector3`
and the `[number, number, number]` tuples of the source). -/
structure Vec3 where
  x : ℚ
  y : ℚ
  z : ℚ
  deriving DecidableEq, Repr

/-- An angle value `ratPart + piCoeff * pi`; the source mixes plain
numeric rotations (e.g. `-0.2`) with multiples of `Math.PI`. -/
structure RotVal where
  ratPart : ℚ
  piCoeff : ℚ
  deriving DecidableEq, Repr

/-- Shorthand for a rotation triple with no pi component. -/
def rotRat (a b c : ℚ) : RotVal × RotVal × RotVal :=
  (⟨a, 0⟩, ⟨b, 0⟩, ⟨c, 0⟩)

/-- `NodeData` from the source. -/
structure NodeData where
  id : String
  position : Vec3
  connected : Bool
  deriving DecidableEq, Repr

/-- `LevelType` from the source. -/
inductive LevelType where
  | PROLOGUE | CHAPTER_1 | NAME | CHEWING | WIND
  | TRAVEL | CONNECTION | HOME | SUN
  deriving DecidableEq, Repr

/-- `InteractionMode` from the source. -/
inductive InteractionMode where
  | SLINGSHOT | LURE | OBSERVER | CLICK
  deriving DecidableEq, Repr

/-- The `type` tag of an `EnvFeature`. -/
inductive FeatureType where
  | WALL | FLESH_TUNNEL | ORGANIC_PLATFORM | LAKE | DECORATION | EXIT_GATE
  | BUBBLE | FRAGMENT | FLESH_BALL | WIND_EMITTER | WITHERED_LEAF
  | EMOTION_ORB | SUN | MUSHROOM
  deriving DecidableEq, Repr

/-- The untyped `data` payload of an `EnvFeature`, restricted to the
shapes actually stored by the source: a bubble text character (kept as
its code point, `String.fromCharCode` argument), a fragment stroke
glyph, or an emotion-orb kind. -/
inductive FeatureData where
  | textCode (c : ℤ)
  | glyph (s : String)
  | orbKind (s : String)
  deriving DecidableEq, Repr

/-- `EnvFeature` from the source. -/
structure EnvFeature where
  id : String
  type : FeatureType
  position : Vec3
  scale : Vec3
  rotation : Option (RotVal × RotVal × RotVal) := none
  color : Option String := none
  data : Option FeatureData := none
  deriving DecidableEq, Repr

/-- The full store state (the `GameState` interface of the source,
data fields only; the actions are modelled as functions below). -/
structure GameState where
  currentLevel : LevelType
  interactionMode : InteractionMode
  narrativeIndex : ℕ
  nodes : List NodeData
  connections : List (String × String)
  envFeatures : List EnvFeature
  playerPos : Vec3
  cursorWorldPos : Vec3
  isMouseDown : Bool
  hoveredNodeId : Option String
  draggingNodeId : Option String
  isInteractiveHover : Bool
  sequenceOrder : List String
  nextSequenceIndex : ℕ
  tetheredNodeId : Option String
  bubblesPopped : ℕ
  fragmentsCollected : ℕ
  playerScale : ℚ
  leafHealth : ℚ
  rainLevel : ℚ
  isRaining : Bool
  isLevelComplete : Bool
  deriving DecidableEq, Repr

/-- Result of a level generator: `{ nodes, env }` in the source. -/
structure GenResult where
  nodes : List NodeData
  env : List EnvFeature
  deriving DecidableEq, Repr

/-- `generatePrologueEnv` from the source: 14 pairs of canal walls plus
an exit gate; fully deterministic. -/
def generatePrologueEnv : GenResult :=
  { nodes := []
    env :=
      ((List.range 14).flatMap fun i =>
        let z : ℚ := -12 + (i : ℚ) * 2
        let width : ℚ := 3 - (i : ℚ) * (1/10)
        [ { id := "canal-l-" ++ toString i, type := FeatureType.FLESH_TUNNEL,
            position := ⟨-width, 1, z⟩, scale := ⟨2, 4, 2⟩,
            rotation := some (rotRat 0 0 (-1/5)), color := some "#d88" },
          { id := "canal-r-" ++ toString i, type := FeatureType.FLESH_TUNNEL,
            position := ⟨width, 1, z⟩, scale := ⟨2, 4, 2⟩,
            rotation := some (rotRat 0 0 (1/5)), color := some "#d88" } ])
      ++ [ { id := "exit-gate", type := FeatureType.EXIT_GATE,
             position := ⟨0, 2, 16⟩, scale := ⟨1, 1, 1⟩, color := some "#fff" } ] }

/-- The six fixed node positions of `generateLevel1Env`. -/
def level1Positions : List (ℚ × ℚ × ℚ) :=
  [(-4, 0, -4), (0, 0, -2), (4, 0, -4), (-2, 0, 2), (2, 0, 2), (0, 0, 5)]

/-- `generateLevel1Env` from the source: six fixed nodes `n1-0 .. n1-5`
and eight randomly placed spore decorations. -/
def generateLevel1Env (rho : ℕ → ℚ) : GenResult :=
  { nodes :=
      level1Positions.enum.map fun ip =>
        { id := "n1-" ++ toString ip.1,
          position := ⟨ip.2.1, 1/2, ip.2.2.2⟩, connected := false }
    env :=
      (List.range 8).map fun i =>
        { id := "spore-" ++ toString i, type := FeatureType.DECORATION,
          position := ⟨(rho (2*i) - 1/2) * 15, 0, (rho (2*i+1) - 1/2) * 15⟩,
          scale := ⟨1/2, 1/2, 1/2⟩, color := some "#e6e6fa" } }

/-- `generateNameEnv` from the source: 15 floating text bubbles at random
positions, each carrying a random CJK character code. -/
def generateNameEnv (rho : ℕ → ℚ) : GenResult :=
  { nodes := []
    env :=
      (List.range 15).map fun i =>
        { id := "bubble-" ++ toString i, type := FeatureType.BUBBLE,
          position := ⟨(rho (4*i) - 1/2) * 12, 1 + rho (4*i+1) * 2,
                       (rho (4*i+2) - 1/2) * 12⟩,
          scale := ⟨4/5, 4/5, 4/5⟩, color := some "#e6e6fa",
          data := some (FeatureData.textCode
            (0x4e00 + Rat.floor (rho (4*i+3) * 100))) } }

/-- `generateChewingEnv` from the source: 20 flesh balls in a corridor
with random lateral offsets and random scales. -/
def generateChewingEnv (rho : ℕ → ℚ) : GenResult :=
  { nodes := []
    env :=
      (List.range 20).map fun i =>
        { id := "fleshball-" ++ toString i, type := FeatureType.FLESH_BALL,
          position := ⟨(rho (4*i) - 1/2) * 3, 1/2, -5 + (i : ℚ) * (3/2)⟩,
          scale := ⟨1 + rho (4*i+1), 1 + rho (4*i+2), 1 + rho (4*i+3)⟩,
          color := some "#ff9999" } }

/-- `generateWindEnv` from the source: a wind emitter and a withered
leaf, fully deterministic. -/
def generateWindEnv : GenResult :=
  { nodes := []
    env :=
      [ { id := "wind-emitter", type := FeatureType.WIND_EMITTER,
          position := ⟨0, 2, -10⟩, scale := ⟨1, 1, 1⟩, color := some "#fff" },
        { id := "withered-leaf", type := FeatureType.WITHERED_LEAF,
          position := ⟨0, 1, 5⟩, scale := ⟨2, 2, 2⟩, color := some "#8b4513" } ] }

/-- `generateTravelEnv` from the source: four fixed emotion orbs. -/
def generateTravelEnv : GenResult :=
  { nodes := []
    env :=
      [ { id := "orb-happy", type := FeatureType.EMOTION_ORB,
          position := ⟨-5, 4/5, -5⟩, scale := ⟨2, 2, 2⟩, color := some "#ffd700",
          data := some (FeatureData.orbKind "HAPPY") },
        { id := "orb-angry", type := FeatureType.EMOTION_ORB,
          position := ⟨5, 4/5, -5⟩, scale := ⟨2, 2, 2⟩, color := some "#ff4500",
          data := some (FeatureData.orbKind "ANGRY") },
        { id := "orb-envy", type := FeatureType.EMOTION_ORB,
          position := ⟨-5, 4/5, 5⟩, scale := ⟨2, 2, 2⟩, color := some "#800080",
          data := some (FeatureData.orbKind "ENVY") },
        { id := "orb-tear", type := FeatureType.EMOTION_ORB,
          position := ⟨5, 4/5, 5⟩, scale := ⟨2, 2, 2⟩, color := some "#00bfff",
          data := some (FeatureData.orbKind "TEAR") } ] }

/-- `generateConnectionEnv` from the source: one platform feature and
five fixed nodes, fully deterministic. -/
def generateConnectionEnv : GenResult :=
  { nodes :=
      [ { id := "n2-low-1", position := ⟨-5, 1/2, 4⟩, connected := false },
        { id := "n2-low-2", position := ⟨5, 1/2, 4⟩, connected := false },
        { id := "n2-mid", position := ⟨0, 1/2, 0⟩, connected := false },
        { id := "n2-high-1", position := ⟨-2, 3, -2⟩, connected := false },
        { id := "n2-high-2", position := ⟨2, 3, -2⟩, connected := false } ]
    env :=
      [ { id := "plat-upper", type := FeatureType.ORGANIC_PLATFORM,
          position := ⟨0, 5/2, -2⟩, scale := ⟨6, 1/2, 6⟩, color := some "#fff0f5" } ] }

/-- `generateHomeEnv` from the source: a single lake feature. -/
def generateHomeEnv : GenResult :=
  { nodes := []
    env :=
      [ { id := "lake", type := FeatureType.LAKE,
          position := ⟨0, -2, -15⟩, scale := ⟨30, 1, 30⟩, color := some "#ffffff" } ] }

/-- `generateSunEnv` from the source: the sun and the mushroom trigger. -/
def generateSunEnv : GenResult :=
  { nodes := []
    env :=
      [ { id := "the-sun", type := FeatureType.SUN,
          position := ⟨0, 10, -20⟩, scale := ⟨8, 8, 8⟩, color := some "#ff0000" },
        { id := "mushroom", type := FeatureType.MUSHROOM,
          position := ⟨0, 1/2, 2⟩, scale := ⟨1, 1, 1⟩, color := some "#f0e68c" } ] }

/-- `START_POSITIONS` from the source. -/
def START_POSITIONS : LevelType → Vec3
  | LevelType.PROLOGUE => ⟨0, 1/2, -12⟩
  | LevelType.CHAPTER_1 => ⟨0, 1/2, 8⟩
  | LevelType.NAME => ⟨0, 1/2, 0⟩
  | LevelType.CHEWING => ⟨0, 1/2, -8⟩
  | LevelType.WIND => ⟨0, 1/2, 8⟩
  | LevelType.TRAVEL => ⟨0, 1/2, 0⟩
  | LevelType.CONNECTION => ⟨0, 1/2, 8⟩
  | LevelType.HOME => ⟨0, 1/2, 5⟩
  | LevelType.SUN => ⟨0, 1/2, 5⟩

/-- The generator dispatched by `startLevel` for each level. -/
def genFor (level : LevelType) (rho : ℕ → ℚ) : GenResult :=
  match level with
  | LevelType.PROLOGUE => generatePrologueEnv
  | LevelType.CHAPTER_1 => generateLevel1Env rho
  | LevelType.NAME => generateNameEnv rho
  | LevelType.CHEWING => generateChewingEnv rho
  | LevelType.WIND => generateWindEnv
  | LevelType.TRAVEL => generateTravelEnv
  | LevelType.CONNECTION => generateConnectionEnv
  | LevelType.HOME => generateHomeEnv
  | LevelType.SUN => generateSunEnv

/-- The interaction mode installed by `startLevel` (default `LURE`,
with the three per-level overrides of the source `switch`). -/
def modeFor : LevelType → InteractionMode
  | LevelType.PROLOGUE => InteractionMode.SLINGSHOT
  | LevelType.HOME => InteractionMode.OBSERVER
  | LevelType.SUN => InteractionMode.CLICK
  | _ => InteractionMode.LURE

/-- The sequence order installed by `startLevel`: the generated node
ids for `CHAPTER_1`, empty otherwise. -/
def seqFor (level : LevelType) (rho : ℕ → ℚ) : List String :=
  match level with
  | LevelType.CHAPTER_1 => ((genFor level rho).nodes).map (fun n => n.id)
  | _ => []

/-- The system state: the store (`gs`) plus the model of the rain
interval started by `triggerRain` — whether a live interval exists
(`rainActive`), the closure-local `hasTriggeredExtinguish` latch
(`rainLatch`) and the number of `playSunExtinguish` calls made so far
(`extinguishCount`). -/
structure Sys where
  gs : GameState
  rainActive : Bool
  rainLatch : Bool
  extinguishCount : ℕ
  deriving DecidableEq, Repr

/-- Lift a store update to the system. -/
def onGs (f : GameState → GameState) (y : Sys) : Sys :=
  { y with gs := f y.gs }

/-- `popBubble` from the source: find the feature with the given id;
silently return if absent; otherwise remove it, spawn three fragments
at jittered positions with random stroke glyphs, bump `bubblesPopped`
and clear the interactive-hover flag. -/
def strokes : List String := ["丿", "丶", "一", "丨", "乙", "乀"]

/-- The three fragment features spawned when popping `bubble`. -/
def popFragments (id : String) (rho : ℕ → ℚ) (bubble : EnvFeature) :
    List EnvFeature :=
  (List.range 3).map fun i =>
    { id := "frag-" ++ id ++ "-" ++ toString i
      type := FeatureType.FRAGMENT
      position := ⟨bubble.position.x + (rho (4*i) - 1/2), 1/5,
                   bubble.position.z + (rho (4*i+1) - 1/2)⟩
      scale := ⟨1/2, 1/2, 1/2⟩
      color := some "#e0a0ff"
      rotation := some (⟨0, -1/2⟩, ⟨0, 0⟩, ⟨0, rho (4*i+2)⟩)
      data := some (FeatureData.glyph
        (strokes.getD (Rat.floor (rho (4*i+3) * 6)).toNat "丿")) }

def popBubble (id : String) (rho : ℕ → ℚ) (s : GameState) : GameState :=
  match s.envFeatures.find? (fun f => f.id == id) with
  | none => s
  | some bubble =>
    { s with
      envFeatures := s.envFeatures.filter (fun f => !(f.id == id))
                       ++ popFragments id rho bubble
      bubblesPopped := s.bubblesPopped + 1
      isInteractiveHover := false }

/-- `absorbFragment` from the source.  Note that it does not check that
the id is present: the counter is incremented unconditionally. -/
def absorbFragment (id : String) (s : GameState) : GameState :=
  let newEnv := s.envFeatures.filter (fun f => !(f.id == id))
  let count := s.fragmentsCollected + 1
  let isComplete := decide (5 ≤ count)
  { s with envFeatures := newEnv, fragmentsCollected := count,
           isLevelComplete := isComplete,
           narrativeIndex := if isComplete then 1 else s.narrativeIndex }

/-- `growPlayer` from the source. -/
def growPlayer (amount : ℚ) (s : GameState) : GameState :=
  let newScale := min (s.playerScale + amount) 10
  let isComplete := decide (8 < newScale)
  { s with playerScale := newScale, isLevelComplete := isComplete,
           narrativeIndex := if isComplete then 1 else s.narrativeIndex }

/-- `healLeaf` from the source. -/
def healLeaf (amount : ℚ) (s : GameState) : GameState :=
  let newHealth := min (s.leafHealth + amount) 100
  { s with leafHealth := newHealth,
           isLevelComplete := decide (100 ≤ newHealth) }

/-- `selectVehicle` from the source: only `TEAR` wins. -/
def selectVehicle (t : String) (s : GameState) : GameState :=
  if t = "TEAR" then { s with isLevelComplete := true, narrativeIndex := 1 }
  else s

/-- `triggerRain` from the source: marks rain as started and arms the
repeating interval with a fresh (unfired) extinguish latch. -/
def triggerRain (y : Sys) : Sys :=
  { y with
    gs := { y.gs with isRaining := true, isInteractiveHover := false },
    rainActive := true, rainLatch := false }

/-- One firing of the interval callback armed by `triggerRain`.  If no
interval is live this is a no-op; otherwise it mirrors the source: at
`rainLevel >= 20` the interval clears itself and completion is set,
else the level rises by `0.04` and the extinguish notification fires
the first time the new level exceeds `6.0`. -/
def rainTick (y : Sys) : Sys :=
  if y.rainActive = false then y
  else if 20 ≤ y.gs.rainLevel then
    { y with rainActive := false,
             gs := { y.gs with isLevelComplete := true, narrativeIndex := 1 } }
  else
    let nextLevel := y.gs.rainLevel + 1/25
    if y.rainLatch = false ∧ 6 < nextLevel then
      { y with gs := { y.gs with rainLevel := nextLevel },
               rainLatch := true, extinguishCount := y.extinguishCount + 1 }
    else
      { y with gs := { y.gs with rainLevel := nextLevel } }

/-- The source id resolved by `completeConnection`: the tethered node
on the tether level, the dragged node otherwise. -/
def resolvedSource (s : GameState) : Option String :=
  if s.currentLevel = LevelType.CONNECTION then s.tetheredNodeId
  else s.draggingNodeId

/-- Every rejection path of `completeConnection` ends in
`set({ draggingNodeId: null })`. -/
def rejectDrag (s : GameState) : GameState := { s with draggingNodeId := none }

/-- The duplicate-edge test of `completeConnection` (`exists`). -/
def connExists (conns : List (String × String)) (src tgt : String) : Bool :=
  conns.any fun c =>
    decide ((c.1 = src ∧ c.2 = tgt) ∨ (c.1 = tgt ∧ c.2 = src))

/-- The sequence gate of `completeConnection`: outside `CHAPTER_1` it
always passes; inside, the pair must be the expected consecutive pair
of `sequenceOrder` at `nextSequenceIndex` (order-insensitive), and the
two expected entries must exist and be non-empty (the source tests
JavaScript truthiness of `sequenceOrder[i]`). -/
def seqOk (s : GameState) (src tgt : String) : Bool :=
  if s.currentLevel = LevelType.CHAPTER_1 then
    match s.sequenceOrder.get? s.nextSequenceIndex,
          s.sequenceOrder.get? (s.nextSequenceIndex + 1) with
    | some cs, some ct =>
      if cs = "" ∨ ct = "" then false
      else decide ((src = cs ∧ tgt = ct) ∨ (src = ct ∧ tgt = cs))
    | _, _ => false
  else true

/-- The flattened id list of a connection set (`newConnections.flat()`). -/
def connIdList (conns : List (String × String)) : List String :=
  conns.flatMap fun c => [c.1, c.2]

/-- The acceptance branch of `completeConnection`: append the edge, mark
both endpoints connected, recompute coverage completion from the
distinct ids of the new connection set, bump the narrative index, clear
the drag and (in sequence mode) advance the sequence index. -/
def acceptConnection (s : GameState) (src tgt : String) : GameState :=
  let newConnections := s.connections ++ [(src, tgt)]
  let newNodes := s.nodes.map fun n =>
    if n.id = src ∨ n.id = tgt then { n with connected := true } else n
  let isComplete :=
    decide (s.nodes.length ≤ (connIdList newConnections).toFinset.card ∧
            0 < s.nodes.length)
  let newSeqIndex :=
    if s.currentLevel = LevelType.CHAPTER_1 then s.nextSequenceIndex + 1
    else s.nextSequenceIndex
  { s with connections := newConnections, nodes := newNodes,
           draggingNodeId := none,
           narrativeIndex := s.narrativeIndex + 1,
           isLevelComplete := isComplete,
           nextSequenceIndex := newSeqIndex }

/-- `completeConnection` from the source. -/
def completeConnection (targetId : String) (s : GameState) : GameState :=
  match resolvedSource s with
  | none => rejectDrag s
  | some src =>
    if src = "" ∨ src = targetId then rejectDrag s
    else if connExists s.connections src targetId then rejectDrag s
    else if seqOk s src targetId then acceptConnection s src targetId
    else rejectDrag s

/-- `startLevel` from the source: dispatch the generator, the mode and
the sequence order, then atomically install the new level state.  The
rain-interval model fields are untouched: the source never clears a
live interval on a level change. -/
def startLevel (level : LevelType) (rho : ℕ → ℚ) (y : Sys) : Sys :=
  let genResult := genFor level rho
  let startP := START_POSITIONS level
  { y with gs :=
    { y.gs with
      currentLevel := level
      interactionMode := modeFor level
      nodes := genResult.nodes
      envFeatures := genResult.env
      connections := []
      playerPos := startP
      cursorWorldPos := startP
      isLevelComplete := false
      narrativeIndex := 0
      draggingNodeId := none
      sequenceOrder := seqFor level rho
      nextSequenceIndex := 0
      tetheredNodeId := none
      bubblesPopped := 0
      fragmentsCollected := 0
      playerScale := 1
      leafHealth := 0
      rainLevel := 0
      isRaining := false
      isInteractiveHover := false } }

/-- `resetGame` from the source: exactly `startLevel('PROLOGUE')`. -/
def resetGame (rho : ℕ → ℚ) (y : Sys) : Sys :=
  startLevel LevelType.PROLOGUE rho y

/-- The public operations of the store, as an action alphabet.  Actions
that consume `Math.random()` carry their own oracle. -/
inductive Act where
  | setCursorWorldPos (p : Vec3)
  | setMouseDown (b : Bool)
  | setHoveredNode (i : Option String)
  | setInteractiveHover (b : Bool)
  | startDragConnection (i : String)
  | cancelDrag
  | setTetheredNode (i : Option String)
  | popBubble (i : String) (rho : ℕ → ℚ)
  | absorbFragment (i : String)
  | growPlayer (a : ℚ)
  | healLeaf (a : ℚ)
  | selectVehicle (t : String)
  | triggerRain
  | rainTick
  | completeConnection (t : String)
  | updatePlayerPos (p : Vec3)
  | advanceNarrative
  | startLevel (l : LevelType) (rho : ℕ → ℚ)
  | resetGame (rho : ℕ → ℚ)

/-- Small-step semantics: apply one public operation. -/
def step (y : Sys) (a : Act) : Sys :=
  match a with
  | Act.setCursorWorldPos p => onGs (fun s => { s with cursorWorldPos := p }) y
  | Act.setMouseDown b => onGs (fun s => { s with isMouseDown := b }) y
  | Act.setHoveredNode i => onGs (fun s => { s with hoveredNodeId := i }) y
  | Act.setInteractiveHover b =>
      onGs (fun s => { s with isInteractiveHover := b }) y
  | Act.startDragConnection i =>
      onGs (fun s => { s with draggingNodeId := some i }) y
  | Act.cancelDrag => onGs (fun s => { s with draggingNodeId := none }) y
  | Act.setTetheredNode i => onGs (fun s => { s with tetheredNodeId := i }) y
  | Act.popBubble i rho => onGs (popBubble i rho) y
  | Act.absorbFragment i => onGs (absorbFragment i) y
  | Act.growPlayer a => onGs (growPlayer a) y
  | Act.healLeaf a => onGs (healLeaf a) y
  | Act.selectVehicle t => onGs (selectVehicle t) y
  | Act.triggerRain => triggerRain y
  | Act.rainTick => rainTick y
  | Act.completeConnection t => onGs (completeConnection t) y
  | Act.updatePlayerPos p => onGs (fun s => { s with playerPos := p }) y
  | Act.advanceNarrative =>
      onGs (fun s => { s with narrativeIndex := s.narrativeIndex + 1 }) y
  | Act.startLevel l rho => startLevel l rho y
  | Act.resetGame rho => resetGame rho y

/-- Run a sequence of public operations. -/
def run (y : Sys) (as : List Act) : Sys := as.foldl step y

/-- The initial store contents of `create(...)`, wrapped with an idle
rain-interval model. -/
def initSys : Sys :=
  { gs :=
      { currentLevel := LevelType.PROLOGUE
        interactionMode := InteractionMode.SLINGSHOT
        narrativeIndex := 0
        nodes := []
        connections := []
        envFeatures := []
        playerPos := ⟨0, 1/2, -12⟩
        cursorWorldPos := ⟨0, 0, 0⟩
        isMouseDown := false
        hoveredNodeId := none
        draggingNodeId := none
        isInteractiveHover := false
        sequenceOrder := []
        nextSequenceIndex := 0
        tetheredNodeId := none
        bubblesPopped := 0
        fragmentsCollected := 0
        playerScale := 1
        leafHealth := 0
        rainLevel := 0
        isRaining := false
        isLevelComplete := false }
    rainActive := false
    rainLatch := false
    extinguishCount := 0 }

/-- Actions that restart a level (`startLevel` or `resetGame`). -/
def isRestart : Act → Bool
  | Act.startLevel _ _ => true
  | Act.resetGame _ => true
  | _ => false

attribute [ext] Vec3 GameState Sys

/-- `completeConnection` either rejects — leaving exactly the
`set({ draggingNodeId: null })` of every rejection path — or accepts,
in which case the resolved source exists, is non-empty, differs from
the target, the edge is not a duplicate and the sequence gate passes. -/
lemma completeConnection_cases (s : GameState) (t : String) :
    completeConnection t s = rejectDrag s ∨
    ∃ src, resolvedSource s = some src ∧ src ≠ "" ∧ src ≠ t ∧
      connExists s.connections src t = false ∧ seqOk s src t = true ∧
      completeConnection t s = acceptConnection s src t := by
  unfold completeConnection
  cases h : resolvedSource s with
  | none => exact Or.inl rfl
  | some src =>
    dsimp only
    by_cases h1 : src = "" ∨ src = t
    · simp [h1]
    · rw [if_neg h1]
      push_neg at h1
      by_cases h2 : connExists s.connections src t
      · simp [h2]
      · rw [if_neg h2]
        by_cases h3 : seqOk s src t
        · rw [if_pos h3]
          exact Or.inr ⟨src, rfl, h1.1, h1.2, by simpa using h2, h3, rfl⟩
        · simp [h3]

/-- Accepting a connection does not change the list of node ids. -/
lemma acceptConnection_nodeIds (s : GameState) (src tgt : String) :
    (acceptConnection s src tgt).nodes.map (fun n => n.id) =
      s.nodes.map (fun n => n.id) := by
  simp only [acceptConnection, List.map_map]
  refine List.map_congr_left fun n _ => ?_
  by_cases h : n.id = src ∨ n.id = tgt <;> simp [h]

/-- Claim C7 (amended): `startLevel(level)` replaces the level state in
one atomic update: it installs the generator's nodes and features, sets
player and cursor position to the level's fixed spawn point, clears
connections, `draggingNodeId`, `tetheredNodeId`, `nextSequenceIndex`,
all mechanic counters (`bubblesPopped`, `fragmentsCollected`,
`playerScale` to 1, `leafHealth`, `rainLevel`, `isRaining`),
`isLevelComplete` and the interactive-hover flag, and resets
`narrativeIndex` to 0 — but it leaves `hoveredNodeId` and `isMouseDown`
unchanged; `resetGame()` is exactly `startLevel` applied to `PROLOGUE`
(hence bubblesPopped=0, fragmentsCollected=0, playerScale=1,
leafHealth=0, rainLevel=0, isRaining=false, connections=[]). -/
theorem C7_theorem (l : LevelType) (rho : ℕ → ℚ) (y : Sys) :
    ((step y (Act.startLevel l rho)).gs.currentLevel = l ∧
     (step y (Act.startLevel l rho)).gs.interactionMode = modeFor l ∧
     (step y (Act.startLevel l rho)).gs.nodes = (genFor l rho).nodes ∧
     (step y (Act.startLevel l rho)).gs.envFeatures = (genFor l rho).env ∧
     (step y (Act.startLevel l rho)).gs.playerPos = START_POSITIONS l ∧
     (step y (Act.startLevel l rho)).gs.cursorWorldPos = START_POSITIONS l ∧
     (step y (Act.startLevel l rho)).gs.connections = [] ∧
     (step y (Act.startLevel l rho)).gs.draggingNodeId = none ∧
     (step y (Act.startLevel l rho)).gs.tetheredNodeId = none ∧
     (step y (Act.startLevel l rho)).gs.sequenceOrder = seqFor l rho ∧
     (step y (Act.startLevel l rho)).gs.nextSequenceIndex = 0 ∧
     (step y (Act.startLevel l rho)).gs.bubblesPopped = 0 ∧
     (step y (Act.startLevel l rho)).gs.fragmentsCollected = 0 ∧
     (step y (Act.startLevel l rho)).gs.playerScale = 1 ∧
     (step y (Act.startLevel l rho)).gs.leafHealth = 0 ∧
     (step y (Act.startLevel l rho)).gs.rainLevel = 0 ∧
     (step y (Act.startLevel l rho)).gs.isRaining = false ∧
     (step y (Act.startLevel l rho)).gs.isLevelComplete = false ∧
     (step y (Act.startLevel l rho)).gs.isInteractiveHover = false ∧
     (step y (Act.startLevel l rho)).gs.narrativeIndex = 0) ∧
    ((step y (Act.startLevel l rho)).gs.hoveredNodeId = y.gs.hoveredNodeId ∧
     (step y (Act.startLevel l rho)).gs.isMouseDown = y.gs.isMouseDown) ∧
    step y (Act.resetGame rho) = step y (Act.startLevel LevelType.PROLOGUE rho) :=
  ⟨⟨rfl, rfl, rfl, rfl, rfl, rfl, rfl, rfl, rfl, rfl, rfl, rfl, rfl, rfl,
    rfl, rfl, rfl, rfl, rfl, rfl⟩, ⟨rfl, rfl⟩, rfl⟩

/-- Claim C7, counterexample to the claim as stated: `startLevel` does
not clear the hovered-node id, so the hover flags are not all reset. -/
theorem C7_counterexample :
    (run initSys [Act.setHoveredNode (some "x"),
      Act.startLevel LevelType.NAME (fun _ => 0)]).gs.hoveredNodeId = some "x" := rfl

/-- A `completeConnection` call that leaves the connection list
unchanged (i.e. any rejected attempt) changes nothing but clearing
`draggingNodeId`. -/
lemma step_completeConnection_rejected (y : Sys) (t : String)
    (h : (step y (Act.completeConnection t)).gs.connections =
           y.gs.connections) :
    step y (Act.completeConnection t) =
      { y with gs := { y.gs with draggingNodeId := none } } := by
  rcases completeConnection_cases y.gs t with hc | ⟨src, _, _, _, _, _, hc⟩
  · simp only [step, onGs, hc, rejectDrag]
  · exfalso
    have hlen := congrArg List.length h
    simp only [step, onGs, hc, acceptConnection] at hlen
    simp at hlen

/-- Claim C3 (amended): a rejected `completeConnection` (no active
drag/tether, duplicate undirected edge, or out-of-order sequence pair)
leaves the whole state unchanged except for clearing `draggingNodeId`
— a full no-op exactly when no drag was active; `popBubble` with an id
absent from the environment-feature list is a full no-op; but
`absorbFragment` with an absent id, while leaving the feature list
unchanged, still increments `fragmentsCollected`. -/
theorem C3_theorem :
    (∀ (y : Sys) (t : String),
       (step y (Act.completeConnection t)).gs.connections =
         y.gs.connections →
       step y (Act.completeConnection t) =
         { y with gs := { y.gs with draggingNodeId := none } }) ∧
    (∀ (y : Sys) (t : String),
       y.gs.draggingNodeId = none → y.gs.tetheredNodeId = none →
       step y (Act.completeConnection t) = y) ∧
    (∀ (y : Sys) (i : String) (rho : ℕ → ℚ),
       (∀ f ∈ y.gs.envFeatures, f.id ≠ i) →
       step y (Act.popBubble i rho) = y) ∧
    (∀ (y : Sys) (i : String),
       (∀ f ∈ y.gs.envFeatures, f.id ≠ i) →
       (step y (Act.absorbFragment i)).gs.envFeatures = y.gs.envFeatures ∧
       (step y (Act.absorbFragment i)).gs.fragmentsCollected =
         y.gs.fragmentsCollected + 1) := by
  refine ⟨fun y t h => step_completeConnection_rejected y t h,
          fun y t hd ht => ?_, fun y i rho h => ?_, fun y i h => ?_⟩
  · have hrs : resolvedSource y.gs = none := by
      unfold resolvedSource
      split <;> simp [hd, ht]
    have hcc : completeConnection t y.gs = y.gs := by
      unfold completeConnection
      rw [hrs]
      unfold rejectDrag
      ext <;> simp [hd]
    simp only [step, onGs, hcc]
  · have hfind : y.gs.envFeatures.find? (fun f => f.id == i) = none :=
      List.find?_eq_none.mpr fun f hf => by simpa using h f hf
    simp only [step, onGs, popBubble, hfind]
  · constructor
    · simp only [step, onGs, absorbFragment]
      exact List.filter_eq_self.mpr fun f hf => by simpa using h f hf
    · simp only [step, onGs, absorbFragment]

/-- Claim C3, counterexample to the claim as stated: `absorbFragment`
with a feature id not present in the (empty) environment-feature list
is not a no-op — it increments `fragmentsCollected`. -/
theorem C3_counterexample :
    initSys.gs.envFeatures = [] ∧ initSys.gs.fragmentsCollected = 0 ∧
    (step initSys (Act.absorbFragment "ghost")).gs.fragmentsCollected = 1 :=
  ⟨rfl, rfl, rfl⟩

/-- Claim C3, witness. -/
theorem C3_witness :
    step initSys (Act.completeConnection "n") = initSys :=
  C3_theorem.2.1 initSys "n" rfl rfl

/-- Claim C8 (confirmed): `absorbFragment(id)` removes the feature(s)
with that id and increments `fragmentsCollected`; after exactly 5
`absorbFragment` calls from a fresh `NAME` level, `isLevelComplete` is
true and `narrativeIndex` sits at its fixed post-completion value 1
(set, not incremented); any further `absorbFragment` call from a
post-completion state leaves both unchanged. -/
theorem C8_theorem :
    (∀ (y : Sys) (i : String),
       (step y (Act.absorbFragment i)).gs.envFeatures =
         y.gs.envFeatures.filter (fun f => !(f.id == i)) ∧
       (step y (Act.absorbFragment i)).gs.fragmentsCollected =
         y.gs.fragmentsCollected + 1) ∧
    (∀ (rho : ℕ → ℚ) (y0 : Sys) (ids : List String), ids.length = 5 →
       (run (step y0 (Act.startLevel LevelType.NAME rho))
          (ids.map Act.absorbFragment)).gs.isLevelComplete = true ∧
       (run (step y0 (Act.startLevel LevelType.NAME rho))
          (ids.map Act.absorbFragment)).gs.narrativeIndex = 1 ∧
       (run (step y0 (Act.startLevel LevelType.NAME rho))
          (ids.map Act.absorbFragment)).gs.fragmentsCollected = 5) ∧
    (∀ (y : Sys) (i : String), 5 ≤ y.gs.fragmentsCollected →
       y.gs.isLevelComplete = true → y.gs.narrativeIndex = 1 →
       (step y (Act.absorbFragment i)).gs.isLevelComplete =
         y.gs.isLevelComplete ∧
       (step y (Act.absorbFragment i)).gs.narrativeIndex =
         y.gs.narrativeIndex) := by
  refine ⟨fun y i => ⟨rfl, rfl⟩, fun rho y0 ids h => ?_,
          fun y i h5 hc hn => ?_⟩
  · rcases ids with _ | ⟨a, ids⟩; · simp at h
    rcases ids with _ | ⟨b, ids⟩; · simp at h
    rcases ids with _ | ⟨c, ids⟩; · simp at h
    rcases ids with _ | ⟨d, ids⟩; · simp at h
    rcases ids with _ | ⟨e, ids⟩; · simp at h
    rcases ids with _ | ⟨f, ids⟩
    · exact ⟨rfl, rfl, rfl⟩
    · simp at h
  · have h5' : decide (5 ≤ y.gs.fragmentsCollected + 1) = true := by
      simp only [decide_eq_true_eq]
      exact Nat.le_succ_of_le h5
    constructor
    · simp only [step, onGs, absorbFragment, h5', hc]
    · simp only [step, onGs, absorbFragment, h5', if_true, hn]

/-- Claim C8, witness. -/
theorem C8_witness :
    (run (step initSys (Act.startLevel LevelType.NAME (fun _ => 0)))
       (["a", "b", "c", "d", "e"].map Act.absorbFragment)).gs.isLevelComplete
         = true ∧
    (run (step initSys (Act.startLevel LevelType.NAME (fun _ => 0)))
       (["a", "b", "c", "d", "e"].map Act.absorbFragment)).gs.narrativeIndex
         = 1 ∧
    (run (step initSys (Act.startLevel LevelType.NAME (fun _ => 0)))
       (["a", "b", "c", "d", "e"].map Act.absorbFragment)).gs.fragmentsCollected
         = 5 :=
  C8_theorem.2.1 (fun _ => 0) initSys ["a", "b", "c", "d", "e"] rfl

/-- Actions that never write `isLevelComplete := false`: everything
except the four mechanics that recompute completion from their own
state (`completeConnection`, `absorbFragment`, `growPlayer`,
`healLeaf`) and the level restarts. -/
def completionSafe : Act → Bool
  | Act.completeConnection _ => false
  | Act.absorbFragment _ => false
  | Act.growPlayer _ => false
  | Act.healLeaf _ => false
  | Act.startLevel _ _ => false
  | Act.resetGame _ => false
  | _ => true

/-- A completion-safe action keeps `isLevelComplete` true. -/
lemma step_preserves_complete (y : Sys) (a : Act)
    (ha : completionSafe a = true) (h : y.gs.isLevelComplete = true) :
    (step y a).gs.isLevelComplete = true := by
  cases a with
  | setCursorWorldPos p => simpa [step, onGs] using h
  | setMouseDown b => simpa [step, onGs] using h
  | setHoveredNode i => simpa [step, onGs] using h
  | setInteractiveHover b => simpa [step, onGs] using h
  | startDragConnection i => simpa [step, onGs] using h
  | cancelDrag => simpa [step, onGs] using h
  | setTetheredNode i => simpa [step, onGs] using h
  | popBubble i rho =>
    simp only [step, onGs, popBubble]
    cases y.gs.envFeatures.find? (fun f => f.id == i) <;> simp [h]
  | selectVehicle t =>
    simp only [step, onGs, selectVehicle]
    split <;> simp [h]
  | triggerRain => simpa [step, triggerRain] using h
  | rainTick =>
    simp only [step, rainTick]
    split
    · simpa using h
    · split
      · simp
      · split <;> simpa using h
  | updatePlayerPos p => simpa [step, onGs] using h
  | advanceNarrative => simpa [step, onGs] using h
  | completeConnection t => simp [completionSafe] at ha
  | absorbFragment i => simp [completionSafe] at ha
  | growPlayer q => simp [completionSafe] at ha
  | healLeaf q => simp [completionSafe] at ha
  | startLevel l rho => simp [completionSafe] at ha
  | resetGame rho => simp [completionSafe] at ha

/-- Completion-safe sequences keep `isLevelComplete` true. -/
lemma run_preserves_complete (y : Sys) (as : List Act)
    (ha : ∀ a ∈ as, completionSafe a = true)
    (h : y.gs.isLevelComplete = true) :
    (run y as).gs.isLevelComplete = true := by
  induction as generalizing y with
  | nil => simpa [run] using h
  | cons a as ih =>
    exact ih (step y a) (fun b hb => ha b (List.mem_cons_of_mem a hb))
      (step_preserves_complete y a (ha a (List.mem_cons_self a as)) h)

/-- Claim C1 (amended): `isLevelComplete` is false immediately after
`startLevel(level)`, and within a level it transitions only from false
to true under any sequence of public operations that avoids
`completeConnection`, `absorbFragment`, `growPlayer` and `healLeaf`;
each of those four recomputes completion from its own mechanic's state
and can therefore reset a completion set by a different mechanic back
to false. -/
theorem C1_theorem (l : LevelType) (rho : ℕ → ℚ) (y0 : Sys)
    (as : List Act) (h : ∀ a ∈ as, completionSafe a = true) :
    (step y0 (Act.startLevel l rho)).gs.isLevelComplete = false ∧
    ∀ y : Sys, y.gs.isLevelComplete = true →
      (run y as).gs.isLevelComplete = true :=
  ⟨rfl, fun y hy => run_preserves_complete y as h hy⟩

/-- Claim C1, counterexample to the claim as stated: in the `CHEWING`
level `growPlayer 9` sets `isLevelComplete` to true, after which the
public operation `healLeaf 0` (neither `startLevel` nor `resetGame`)
flips it back to false. -/
theorem C1_counterexample :
    (run (step initSys (Act.startLevel LevelType.CHEWING (fun _ => 0)))
       [Act.growPlayer 9]).gs.isLevelComplete = true ∧
    (run (step initSys (Act.startLevel LevelType.CHEWING (fun _ => 0)))
       [Act.growPlayer 9, Act.healLeaf 0]).gs.isLevelComplete = false := by
  constructor
  · show decide ((8:ℚ) < min (1 + 9) 10) = true
    norm_num [min_def]
  · show decide ((100:ℚ) ≤ min (0 + 0) 100) = false
    norm_num [min_def]

/-- Claim C1, witness. -/
theorem C1_witness :
    (step initSys (Act.startLevel LevelType.CHEWING (fun _ => 0))).gs.isLevelComplete
      = false ∧
    ∀ y : Sys, y.gs.isLevelComplete = true →
      (run y [Act.advanceNarrative]).gs.isLevelComplete = true :=
  C1_theorem LevelType.CHEWING (fun _ => 0) initSys [Act.advanceNarrative]
    (by intro a ha; rw [List.mem_singleton] at ha; subst ha; rfl)

/-- The grow/heal amounts of an action are non-negative (trivially true
for actions without an amount). -/
def nonnegAct : Act → Prop
  | Act.growPlayer a => 0 ≤ a
  | Act.healLeaf a => 0 ≤ a
  | _ => True

/-- The bounds invariant of claim C5, with the rain level strengthened
to a reachability statement: it is always a multiple of `1/25 = 0.04`
with at most 500 steps taken. -/
def InvC5 (y : Sys) : Prop :=
  1 ≤ y.gs.playerScale ∧ y.gs.playerScale ≤ 10 ∧
  0 ≤ y.gs.leafHealth ∧ y.gs.leafHealth ≤ 100 ∧
  ∃ k : ℕ, k ≤ 500 ∧ y.gs.rainLevel = (k : ℚ) / 25

lemma rain_level_ge20 (k : ℕ) : (20 : ℚ) ≤ (k : ℚ) / 25 ↔ 500 ≤ k := by
  rw [le_div_iff₀ (by norm_num : (0:ℚ) < 25)]
  constructor
  · intro h
    exact_mod_cast (by linarith : (500:ℚ) ≤ (k:ℚ))
  · intro h
    have h' : (500:ℚ) ≤ (k:ℚ) := by exact_mod_cast h
    linarith

lemma rain_level_gt6 (k : ℕ) : (6 : ℚ) < (k : ℚ) / 25 ↔ 151 ≤ k := by
  rw [lt_div_iff₀ (by norm_num : (0:ℚ) < 25)]
  constructor
  · intro h
    have h' : (150:ℚ) < (k:ℚ) := by linarith
    have := Nat.cast_lt (α := ℚ) (m := 150) (n := k) |>.mp h'
    omega
  · intro h
    have h' : (150:ℚ) < (k:ℚ) := by
      exact_mod_cast Nat.lt_of_lt_of_le (by norm_num) h
    linarith

/-- One non-restart action with non-negative amounts preserves the C5
invariant and is monotone on the three clamped quantities. -/
lemma c5_step (y : Sys) (a : Act) (ha : nonnegAct a)
    (hr : isRestart a = false) (h : InvC5 y) :
    InvC5 (step y a) ∧
    y.gs.playerScale ≤ (step y a).gs.playerScale ∧
    y.gs.leafHealth ≤ (step y a).gs.leafHealth ∧
    y.gs.rainLevel ≤ (step y a).gs.rainLevel := by
  obtain ⟨h1, h2, h3, h4, k, hk, hrl⟩ := h
  cases a with
  | setCursorWorldPos p => exact ⟨⟨h1, h2, h3, h4, k, hk, hrl⟩, le_refl _, le_refl _, le_refl _⟩
  | setMouseDown b => exact ⟨⟨h1, h2, h3, h4, k, hk, hrl⟩, le_refl _, le_refl _, le_refl _⟩
  | setHoveredNode i => exact ⟨⟨h1, h2, h3, h4, k, hk, hrl⟩, le_refl _, le_refl _, le_refl _⟩
  | setInteractiveHover b => exact ⟨⟨h1, h2, h3, h4, k, hk, hrl⟩, le_refl _, le_refl _, le_refl _⟩
  | startDragConnection i => exact ⟨⟨h1, h2, h3, h4, k, hk, hrl⟩, le_refl _, le_refl _, le_refl _⟩
  | cancelDrag => exact ⟨⟨h1, h2, h3, h4, k, hk, hrl⟩, le_refl _, le_refl _, le_refl _⟩
  | setTetheredNode i => exact ⟨⟨h1, h2, h3, h4, k, hk, hrl⟩, le_refl _, le_refl _, le_refl _⟩
  | updatePlayerPos p => exact ⟨⟨h1, h2, h3, h4, k, hk, hrl⟩, le_refl _, le_refl _, le_refl _⟩
  | advanceNarrative => exact ⟨⟨h1, h2, h3, h4, k, hk, hrl⟩, le_refl _, le_refl _, le_refl _⟩
  | selectVehicle t =>
    simp only [step, onGs, selectVehicle]
    split <;> exact ⟨⟨h1, h2, h3, h4, k, hk, hrl⟩, le_refl _, le_refl _, le_refl _⟩
  | popBubble i rho =>
    simp only [step, onGs, popBubble]
    cases y.gs.envFeatures.find? (fun f => f.id == i) <;>
      exact ⟨⟨h1, h2, h3, h4, k, hk, hrl⟩, le_refl _, le_refl _, le_refl _⟩
  | absorbFragment i => exact ⟨⟨h1, h2, h3, h4, k, hk, hrl⟩, le_refl _, le_refl _, le_refl _⟩
  | completeConnection t =>
    rcases completeConnection_cases y.gs t with hc | ⟨src, _, _, _, _, _, hc⟩ <;>
      · simp only [step, onGs, hc, rejectDrag, acceptConnection]
        exact ⟨⟨h1, h2, h3, h4, k, hk, hrl⟩, le_refl _, le_refl _, le_refl _⟩
  | growPlayer q =>
    have hq : (0:ℚ) ≤ q := ha
    have hmono : y.gs.playerScale ≤ min (y.gs.playerScale + q) 10 :=
      le_min (by linarith) h2
    exact ⟨⟨le_trans h1 hmono, min_le_right _ _, h3, h4, k, hk, hrl⟩,
           hmono, le_refl _, le_refl _⟩
  | healLeaf q =>
    have hq : (0:ℚ) ≤ q := ha
    have hmono : y.gs.leafHealth ≤ min (y.gs.leafHealth + q) 100 :=
      le_min (by linarith) h4
    exact ⟨⟨h1, h2, le_trans h3 hmono, min_le_right _ _, k, hk, hrl⟩,
           le_refl _, hmono, le_refl _⟩
  | triggerRain =>
    exact ⟨⟨h1, h2, h3, h4, k, hk, hrl⟩, le_refl _, le_refl _, le_refl _⟩
  | rainTick =>
    simp only [step, rainTick]
    split
    · exact ⟨⟨h1, h2, h3, h4, k, hk, hrl⟩, le_refl _, le_refl _, le_refl _⟩
    · split
      · exact ⟨⟨h1, h2, h3, h4, k, hk, hrl⟩, le_refl _, le_refl _, le_refl _⟩
      · rename_i hactive hlt
        have hk500 : k < 500 := by
          rcases Nat.lt_or_ge k 500 with hlt' | hge
          · exact hlt'
          · exact absurd (hrl ▸ (rain_level_ge20 k).mpr hge) hlt
        have hnext : y.gs.rainLevel + 1/25 = ((k + 1 : ℕ) : ℚ) / 25 := by
          rw [hrl]
          push_cast
          ring
        have hmono : y.gs.rainLevel ≤ y.gs.rainLevel + 1/25 := by linarith
        split <;>
          exact ⟨⟨h1, h2, h3, h4, k + 1, by omega, hnext ▸ rfl⟩,
                 le_refl _, le_refl _, hmono⟩
  | startLevel l rho => simp [isRestart] at hr
  | resetGame rho => simp [isRestart] at hr

/-- Non-restart sequences with non-negative amounts preserve the C5
invariant and are monotone on the three clamped quantities. -/
lemma c5_run (y : Sys) (as : List Act) (hn : ∀ a ∈ as, nonnegAct a)
    (hr : ∀ a ∈ as, isRestart a = false) (h : InvC5 y) :
    InvC5 (run y as) ∧
    y.gs.playerScale ≤ (run y as).gs.playerScale ∧
    y.gs.leafHealth ≤ (run y as).gs.leafHealth ∧
    y.gs.rainLevel ≤ (run y as).gs.rainLevel := by
  induction as generalizing y with
  | nil => exact ⟨h, le_refl _, le_refl _, le_refl _⟩
  | cons a as ih =>
    obtain ⟨hstep, m1, m2, m3⟩ :=
      c5_step y a (hn a (List.mem_cons_self a as))
        (hr a (List.mem_cons_self a as)) h
    obtain ⟨hrun, n1, n2, n3⟩ :=
      ih (step y a) (fun b hb => hn b (List.mem_cons_of_mem a hb))
        (fun b hb => hr b (List.mem_cons_of_mem a hb)) hstep
    exact ⟨hrun, le_trans m1 n1, le_trans m2 n2, le_trans m3 n3⟩

/-- Claim C5 (amended): within any level, for every sequence of
non-restart public operations whose `growPlayer`/`healLeaf` amounts are
non-negative, `playerScale` stays in `[1, 10]`, `leafHealth` stays in
`[0, 100]` and `rainLevel` stays in `[0, 20]`, each monotonically
non-decreasing and clamped rather than exceeding its ceiling; a
negative amount can push `playerScale` below 1 (and make it decrease). -/
theorem C5_theorem (l : LevelType) (rho : ℕ → ℚ) (y0 : Sys)
    (as bs : List Act)
    (hn : ∀ a ∈ as ++ bs, nonnegAct a)
    (hr : ∀ a ∈ as ++ bs, isRestart a = false) :
    (1 ≤ (run (step y0 (Act.startLevel l rho)) (as ++ bs)).gs.playerScale ∧
     (run (step y0 (Act.startLevel l rho)) (as ++ bs)).gs.playerScale ≤ 10 ∧
     0 ≤ (run (step y0 (Act.startLevel l rho)) (as ++ bs)).gs.leafHealth ∧
     (run (step y0 (Act.startLevel l rho)) (as ++ bs)).gs.leafHealth ≤ 100 ∧
     0 ≤ (run (step y0 (Act.startLevel l rho)) (as ++ bs)).gs.rainLevel ∧
     (run (step y0 (Act.startLevel l rho)) (as ++ bs)).gs.rainLevel ≤ 20) ∧
    ((run (step y0 (Act.startLevel l rho)) as).gs.playerScale ≤
       (run (step y0 (Act.startLevel l rho)) (as ++ bs)).gs.playerScale ∧
     (run (step y0 (Act.startLevel l rho)) as).gs.leafHealth ≤
       (run (step y0 (Act.startLevel l rho)) (as ++ bs)).gs.leafHealth ∧
     (run (step y0 (Act.startLevel l rho)) as).gs.rainLevel ≤
       (run (step y0 (Act.startLevel l rho)) (as ++ bs)).gs.rainLevel) := by
  have h0 : InvC5 (step y0 (Act.startLevel l rho)) := by
    refine ⟨le_refl _, ?_, le_refl _, ?_, 0, by omega, ?_⟩
    · show (1:ℚ) ≤ 10
      norm_num
    · show (0:ℚ) ≤ 100
      norm_num
    · show (0:ℚ) = ((0:ℕ):ℚ) / 25
      norm_num
  obtain ⟨h1, _, _, _⟩ :=
    c5_run _ as (fun a hb => hn a (List.mem_append_left _ hb))
      (fun a hb => hr a (List.mem_append_left _ hb)) h0
  obtain ⟨h2, m1, m2, m3⟩ :=
    c5_run _ bs (fun a hb => hn a (List.mem_append_right _ hb))
      (fun a hb => hr a (List.mem_append_right _ hb)) h1
  have hsplit : run (step y0 (Act.startLevel l rho)) (as ++ bs) =
      run (run (step y0 (Act.startLevel l rho)) as) bs := by
    simp [run, List.foldl_append]
  rw [hsplit]
  obtain ⟨b1, b2, b3, b4, k, hk, hrl⟩ := h2
  refine ⟨⟨b1, b2, b3, b4, ?_, ?_⟩, m1, m2, m3⟩
  · rw [hrl]
    positivity
  · rw [hrl]
    rw [div_le_iff₀ (by norm_num : (0:ℚ) < 25)]
    have : (k:ℚ) ≤ 500 := by exact_mod_cast hk
    linarith

/-- Claim C5, counterexample to the claim as stated: the public
operation `growPlayer` with the negative amount `-1` pushes
`playerScale` from its initial value 1 down to 0, outside `[1, 10]`
and strictly decreasing. -/
theorem C5_counterexample :
    (run (step initSys (Act.startLevel LevelType.CHEWING (fun _ => 0)))
       [Act.growPlayer (-1)]).gs.playerScale = 0 := by
  show min ((1:ℚ) + -1) 10 = 0
  norm_num [min_def]

/-- Claim C5, witness. -/
theorem C5_witness :
    (1 ≤ (run (step initSys (Act.startLevel LevelType.CHEWING (fun _ => 0)))
           ([Act.growPlayer 2] ++ [Act.healLeaf 3])).gs.playerScale ∧
     (run (step initSys (Act.startLevel LevelType.CHEWING (fun _ => 0)))
       ([Act.growPlayer 2] ++ [Act.healLeaf 3])).gs.playerScale ≤ 10 ∧
     0 ≤ (run (step initSys (Act.startLevel LevelType.CHEWING (fun _ => 0)))
           ([Act.growPlayer 2] ++ [Act.healLeaf 3])).gs.leafHealth ∧
     (run (step initSys (Act.startLevel LevelType.CHEWING (fun _ => 0)))
       ([Act.growPlayer 2] ++ [Act.healLeaf 3])).gs.leafHealth ≤ 100 ∧
     0 ≤ (run (step initSys (Act.startLevel LevelType.CHEWING (fun _ => 0)))
           ([Act.growPlayer 2] ++ [Act.healLeaf 3])).gs.rainLevel ∧
     (run (step initSys (Act.startLevel LevelType.CHEWING (fun _ => 0)))
       ([Act.growPlayer 2] ++ [Act.healLeaf 3])).gs.rainLevel ≤ 20) ∧
    ((run (step initSys (Act.startLevel LevelType.CHEWING (fun _ => 0)))
        [Act.growPlayer 2]).gs.playerScale ≤
       (run (step initSys (Act.startLevel LevelType.CHEWING (fun _ => 0)))
         ([Act.growPlayer 2] ++ [Act.healLeaf 3])).gs.playerScale ∧
     (run (step initSys (Act.startLevel LevelType.CHEWING (fun _ => 0)))
        [Act.growPlayer 2]).gs.leafHealth ≤
       (run (step initSys (Act.startLevel LevelType.CHEWING (fun _ => 0)))
         ([Act.growPlayer 2] ++ [Act.healLeaf 3])).gs.leafHealth ∧
     (run (step initSys (Act.startLevel LevelType.CHEWING (fun _ => 0)))
        [Act.growPlayer 2]).gs.rainLevel ≤
       (run (step initSys (Act.startLevel LevelType.CHEWING (fun _ => 0)))
         ([Act.growPlayer 2] ++ [Act.healLeaf 3])).gs.rainLevel) :=
  C5_theorem LevelType.CHEWING (fun _ => 0) initSys
    [Act.growPlayer 2] [Act.healLeaf 3]
    (by
      intro a ha
      simp only [List.cons_append, List.nil_append, List.mem_cons,
        List.not_mem_nil, or_false] at ha
      rcases ha with h | h <;> (subst h; norm_num [nonnegAct]))
    (by
      intro a ha
      simp only [List.cons_append, List.nil_append, List.mem_cons,
        List.not_mem_nil, or_false] at ha
      rcases ha with h | h <;> (subst h; rfl))

/-- The sequence order generated for `CHAPTER_1`: the ids of the six
generated nodes, in generation order. -/
def chapter1Seq : List String :=
  ["n1-0", "n1-1", "n1-2", "n1-3", "n1-4", "n1-5"]

/-- The generated `CHAPTER_1` sequence order does not depend on the
random oracle and is the fixed id list. -/
lemma seqFor_chapter1 (rho : ℕ → ℚ) :
    seqFor LevelType.CHAPTER_1 rho = chapter1Seq := rfl

/-- The j-th edge a `CHAPTER_1` play-through must produce. -/
def expectedEdge (j : ℕ) : String × String :=
  ((chapter1Seq.get? j).getD "", (chapter1Seq.get? (j + 1)).getD "")

/-- Unfolding of the sequence gate once both expected entries are known. -/
lemma seqOk_of_get? (s : GameState) (src tgt cs ct : String)
    (hlev : s.currentLevel = LevelType.CHAPTER_1)
    (hcs : s.sequenceOrder.get? s.nextSequenceIndex = some cs)
    (hct : s.sequenceOrder.get? (s.nextSequenceIndex + 1) = some ct) :
    seqOk s src tgt =
      if cs = "" ∨ ct = "" then false
      else decide ((src = cs ∧ tgt = ct) ∨ (src = ct ∧ tgt = cs)) := by
  unfold seqOk
  rw [if_pos hlev, hcs, hct]

/-- The `CHAPTER_1` invariant: the level and its sequence order are
fixed, the sequence index equals the number of recorded connections,
at most 5 edges exist, and the j-th recorded edge is the j-th
consecutive pair of the sequence order (in either orientation). -/
def Ch1Inv (y : Sys) : Prop :=
  y.gs.currentLevel = LevelType.CHAPTER_1 ∧
  y.gs.sequenceOrder = chapter1Seq ∧
  y.gs.nextSequenceIndex = y.gs.connections.length ∧
  y.gs.connections.length ≤ 5 ∧
  ∀ j p, y.gs.connections.get? j = some p →
    p = expectedEdge j ∨ p = (expectedEdge j).swap

lemma ch1_inv_start (rho : ℕ → ℚ) (y0 : Sys) :
    Ch1Inv (step y0 (Act.startLevel LevelType.CHAPTER_1 rho)) := by
  refine ⟨rfl, rfl, rfl, ?_, ?_⟩
  · show ([] : List (String × String)).length ≤ 5
    simp
  · intro j p hj
    simp [step, startLevel] at hj

/-- Every non-restart action preserves the `CHAPTER_1` invariant. -/
lemma ch1_step (y : Sys) (a : Act) (hr : isRestart a = false)
    (h : Ch1Inv y) : Ch1Inv (step y a) := by
  obtain ⟨hlev, hseq, hidx, hlen, hpairs⟩ := h
  cases a with
  | setCursorWorldPos p => exact ⟨hlev, hseq, hidx, hlen, hpairs⟩
  | setMouseDown b => exact ⟨hlev, hseq, hidx, hlen, hpairs⟩
  | setHoveredNode i => exact ⟨hlev, hseq, hidx, hlen, hpairs⟩
  | setInteractiveHover b => exact ⟨hlev, hseq, hidx, hlen, hpairs⟩
  | startDragConnection i => exact ⟨hlev, hseq, hidx, hlen, hpairs⟩
  | cancelDrag => exact ⟨hlev, hseq, hidx, hlen, hpairs⟩
  | setTetheredNode i => exact ⟨hlev, hseq, hidx, hlen, hpairs⟩
  | updatePlayerPos p => exact ⟨hlev, hseq, hidx, hlen, hpairs⟩
  | advanceNarrative => exact ⟨hlev, hseq, hidx, hlen, hpairs⟩
  | absorbFragment i => exact ⟨hlev, hseq, hidx, hlen, hpairs⟩
  | growPlayer q => exact ⟨hlev, hseq, hidx, hlen, hpairs⟩
  | healLeaf q => exact ⟨hlev, hseq, hidx, hlen, hpairs⟩
  | triggerRain => exact ⟨hlev, hseq, hidx, hlen, hpairs⟩
  | popBubble i rho =>
    simp only [step, onGs, popBubble]
    cases y.gs.envFeatures.find? (fun f => f.id == i) <;>
      exact ⟨hlev, hseq, hidx, hlen, hpairs⟩
  | selectVehicle t =>
    simp only [step, onGs, selectVehicle]
    split <;> exact ⟨hlev, hseq, hidx, hlen, hpairs⟩
  | rainTick =>
    simp only [step, rainTick]
    split
    · exact ⟨hlev, hseq, hidx, hlen, hpairs⟩
    · split
      · exact ⟨hlev, hseq, hidx, hlen, hpairs⟩
      · split <;> exact ⟨hlev, hseq, hidx, hlen, hpairs⟩
  | completeConnection t =>
    rcases completeConnection_cases y.gs t with hc |
      ⟨src, hsrc, hne, hnt, hdup, hok, hc⟩
    · simp only [step, onGs, hc, rejectDrag]
      exact ⟨hlev, hseq, hidx, hlen, hpairs⟩
    · -- extract the expected pair from the sequence gate
      rcases hcs : chapter1Seq.get? y.gs.connections.length with _ | cs
      · unfold seqOk at hok
        rw [hlev, if_pos rfl, hseq, hidx, hcs] at hok
        simp at hok
      rcases hct : chapter1Seq.get? (y.gs.connections.length + 1) with _ | ct
      · unfold seqOk at hok
        rw [hlev, if_pos rfl, hseq, hidx, hcs, hct] at hok
        simp at hok
      rw [seqOk_of_get? y.gs src t cs ct hlev
            (by rw [hseq, hidx]; exact hcs)
            (by rw [hseq, hidx]; exact hct)] at hok
      have hlt : y.gs.connections.length + 1 < chapter1Seq.length :=
        (List.get?_eq_some.mp hct).1
      have hlen4 : y.gs.connections.length ≤ 4 := by
        simp only [chapter1Seq, List.length_cons, List.length_nil] at hlt
        omega
      have hpair : (src = cs ∧ t = ct) ∨ (src = ct ∧ t = cs) := by
        by_cases hemp : cs = "" ∨ ct = ""
        · rw [if_pos hemp] at hok; simp at hok
        · rw [if_neg hemp] at hok; exact of_decide_eq_true hok
      simp only [step, onGs, hc, acceptConnection]
      refine ⟨hlev, hseq, ?_, ?_, ?_⟩
      · rw [hlev, if_pos rfl, hidx]
        simp
      · simp only [List.length_append, List.length_cons, List.length_nil]
        omega
      · intro j p hj
        rcases Nat.lt_trichotomy j y.gs.connections.length with hj' | hj' | hj'
        · rw [List.get?_append hj'] at hj
          exact hpairs j p hj
        · rw [hj', List.get?_concat_length] at hj
          have hp : p = (src, t) := by
            injection hj with hj2
            exact hj2.symm
          have hcs' : (chapter1Seq.get? j).getD "" = cs := by
            rw [hj', hcs]
            rfl
          have hct' : (chapter1Seq.get? (j + 1)).getD "" = ct := by
            rw [hj', hct]
            rfl
          rcases hpair with ⟨e1, e2⟩ | ⟨e1, e2⟩
          · left
            rw [hp, expectedEdge, hcs', hct', e1, e2]
          · right
            rw [hp, expectedEdge, Prod.swap_prod_mk, hcs', hct', e1, e2]
        · exfalso
          have hnone : (y.gs.connections ++ [(src, t)]).get? j = none := by
            rw [List.get?_eq_none]
            simp only [List.length_append, List.length_cons, List.length_nil]
            omega
          rw [hnone] at hj
          exact Option.noConfusion hj
  | startLevel l rho => simp [isRestart] at hr
  | resetGame rho => simp [isRestart] at hr

/-- Non-restart sequences preserve the `CHAPTER_1` invariant. -/
lemma ch1_run (y : Sys) (as : List Act)
    (hr : ∀ a ∈ as, isRestart a = false) (h : Ch1Inv y) :
    Ch1Inv (run y as) := by
  induction as generalizing y with
  | nil => exact h
  | cons a as ih =>
    exact ih (step y a) (fun b hb => hr b (List.mem_cons_of_mem a hb))
      (ch1_step y a (hr a (List.mem_cons_self a as)) h)

/-- Claim C4 (confirmed): in the `CHAPTER_1` sequence level,
`nextSequenceIndex` never exceeds `sequenceOrder.length - 1`; every
single public non-restart operation either leaves both the index and
the connection list unchanged, or increases the index by exactly 1
while adding exactly one edge; and concretely, from a fresh level,
connecting `n1-0, n1-2` is rejected with the index staying 0 while
`n1-0, n1-1` is accepted with the index becoming 1. -/
theorem C4_theorem (rho : ℕ → ℚ) (y0 : Sys) (as : List Act)
    (hr : ∀ a ∈ as, isRestart a = false) :
    (run (step y0 (Act.startLevel LevelType.CHAPTER_1 rho)) as).gs.nextSequenceIndex ≤
      (run (step y0 (Act.startLevel LevelType.CHAPTER_1 rho)) as).gs.sequenceOrder.length - 1 ∧
    (∀ a, isRestart a = false →
      ((step (run (step y0 (Act.startLevel LevelType.CHAPTER_1 rho)) as) a).gs.nextSequenceIndex =
         (run (step y0 (Act.startLevel LevelType.CHAPTER_1 rho)) as).gs.nextSequenceIndex ∧
       (step (run (step y0 (Act.startLevel LevelType.CHAPTER_1 rho)) as) a).gs.connections =
         (run (step y0 (Act.startLevel LevelType.CHAPTER_1 rho)) as).gs.connections) ∨
      ((step (run (step y0 (Act.startLevel LevelType.CHAPTER_1 rho)) as) a).gs.nextSequenceIndex =
         (run (step y0 (Act.startLevel LevelType.CHAPTER_1 rho)) as).gs.nextSequenceIndex + 1 ∧
       (step (run (step y0 (Act.startLevel LevelType.CHAPTER_1 rho)) as) a).gs.connections.length =
         (run (step y0 (Act.startLevel LevelType.CHAPTER_1 rho)) as).gs.connections.length + 1)) ∧
    (run (step y0 (Act.startLevel LevelType.CHAPTER_1 rho))
       [Act.startDragConnection "n1-0",
        Act.completeConnection "n1-2"]).gs.nextSequenceIndex = 0 ∧
    (run (step y0 (Act.startLevel LevelType.CHAPTER_1 rho))
       [Act.startDragConnection "n1-0",
        Act.completeConnection "n1-1"]).gs.nextSequenceIndex = 1 := by
  obtain ⟨hlev, hseq, hidx, hlen, hpairs⟩ :=
    ch1_run _ as hr (ch1_inv_start rho y0)
  refine ⟨?_, ?_, rfl, rfl⟩
  · rw [hseq, hidx]
    show _ ≤ 6 - 1
    omega
  · intro a hra
    set z := run (step y0 (Act.startLevel LevelType.CHAPTER_1 rho)) as with hz
    cases a with
    | setCursorWorldPos p => exact Or.inl ⟨rfl, rfl⟩
    | setMouseDown b => exact Or.inl ⟨rfl, rfl⟩
    | setHoveredNode i => exact Or.inl ⟨rfl, rfl⟩
    | setInteractiveHover b => exact Or.inl ⟨rfl, rfl⟩
    | startDragConnection i => exact Or.inl ⟨rfl, rfl⟩
    | cancelDrag => exact Or.inl ⟨rfl, rfl⟩
    | setTetheredNode i => exact Or.inl ⟨rfl, rfl⟩
    | updatePlayerPos p => exact Or.inl ⟨rfl, rfl⟩
    | advanceNarrative => exact Or.inl ⟨rfl, rfl⟩
    | absorbFragment i => exact Or.inl ⟨rfl, rfl⟩
    | growPlayer q => exact Or.inl ⟨rfl, rfl⟩
    | healLeaf q => exact Or.inl ⟨rfl, rfl⟩
    | triggerRain => exact Or.inl ⟨rfl, rfl⟩
    | popBubble i rho2 =>
      simp only [step, onGs, popBubble]
      cases z.gs.envFeatures.find? (fun f => f.id == i) <;> exact Or.inl ⟨rfl, rfl⟩
    | selectVehicle t =>
      simp only [step, onGs, selectVehicle]
      split <;> exact Or.inl ⟨rfl, rfl⟩
    | rainTick =>
      simp only [step, rainTick]
      split
      · exact Or.inl ⟨rfl, rfl⟩
      · split
        · exact Or.inl ⟨rfl, rfl⟩
        · split <;> exact Or.inl ⟨rfl, rfl⟩
    | completeConnection t =>
      rcases completeConnection_cases z.gs t with hc |
        ⟨src, hsrc, hne, hnt, hdup, hok, hc⟩
      · simp only [step, onGs]
        rw [hc]
        exact Or.inl ⟨rfl, rfl⟩
      · simp only [step, onGs]
        rw [hc]
        refine Or.inr ⟨?_, ?_⟩
        · show (if z.gs.currentLevel = LevelType.CHAPTER_1
                then z.gs.nextSequenceIndex + 1
                else z.gs.nextSequenceIndex) = z.gs.nextSequenceIndex + 1
          rw [if_pos hlev]
        · show (z.gs.connections ++ [(src, t)]).length =
            z.gs.connections.length + 1
          simp
    | startLevel l rho2 => simp [isRestart] at hra
    | resetGame rho2 => simp [isRestart] at hra

/-- Claim C4, witness. -/
theorem C4_witness :
    (run (step initSys (Act.startLevel LevelType.CHAPTER_1 (fun _ => 0)))
       [Act.startDragConnection "n1-0",
        Act.completeConnection "n1-2"]).gs.nextSequenceIndex = 0 ∧
    (run (step initSys (Act.startLevel LevelType.CHAPTER_1 (fun _ => 0)))
       [Act.startDragConnection "n1-0",
        Act.completeConnection "n1-1"]).gs.nextSequenceIndex = 1 :=
  ⟨(C4_theorem (fun _ => 0) initSys [] (by intro a ha; simp at ha)).2.2.1,
   (C4_theorem (fun _ => 0) initSys [] (by intro a ha; simp at ha)).2.2.2⟩

/-- Claim C10 (confirmed): in the `CHAPTER_1` level, at every state
reachable by non-restart public operations, `connections.length`
equals `nextSequenceIndex` and the j-th recorded edge is exactly the
unordered pair of `sequenceOrder[j]` and `sequenceOrder[j+1]` — the
connection list is the consecutive prefix of the sequence order. -/
theorem C10_theorem (rho : ℕ → ℚ) (y0 : Sys) (as : List Act)
    (hr : ∀ a ∈ as, isRestart a = false) :
    (run (step y0 (Act.startLevel LevelType.CHAPTER_1 rho)) as).gs.connections.length =
      (run (step y0 (Act.startLevel LevelType.CHAPTER_1 rho)) as).gs.nextSequenceIndex ∧
    ∀ j p,
      (run (step y0 (Act.startLevel LevelType.CHAPTER_1 rho)) as).gs.connections.get? j
        = some p →
      p = expectedEdge j ∨ p = (expectedEdge j).swap := by
  obtain ⟨_, _, hidx, _, hpairs⟩ := ch1_run _ as hr (ch1_inv_start rho y0)
  exact ⟨hidx.symm, hpairs⟩

/-- Claim C10, witness. -/
theorem C10_witness :
    (run (step initSys (Act.startLevel LevelType.CHAPTER_1 (fun _ => 0)))
       [Act.startDragConnection "n1-0", Act.completeConnection "n1-1",
        Act.startDragConnection "n1-1", Act.completeConnection "n1-2"]).gs.connections.length =
      (run (step initSys (Act.startLevel LevelType.CHAPTER_1 (fun _ => 0)))
       [Act.startDragConnection "n1-0", Act.completeConnection "n1-1",
        Act.startDragConnection "n1-1", Act.completeConnection "n1-2"]).gs.nextSequenceIndex ∧
    ∀ j p,
      (run (step initSys (Act.startLevel LevelType.CHAPTER_1 (fun _ => 0)))
       [Act.startDragConnection "n1-0", Act.completeConnection "n1-1",
        Act.startDragConnection "n1-1", Act.completeConnection "n1-2"]).gs.connections.get? j
        = some p →
      p = expectedEdge j ∨ p = (expectedEdge j).swap :=
  C10_theorem (fun _ => 0) initSys
    [Act.startDragConnection "n1-0", Act.completeConnection "n1-1",
     Act.startDragConnection "n1-1", Act.completeConnection "n1-2"]
    (by
      intro a ha
      simp only [List.mem_cons, List.not_mem_nil, or_false] at ha
      rcases ha with h | h | h | h <;> (subst h; rfl))

/-- The ids of the current node list. -/
def nodeIds (s : GameState) : List String := s.nodes.map fun n => n.id

/-- Whether one action passes only ids present in the current node
list to the three connection-building entry points. -/
def actIdsOk (y : Sys) : Act → Bool
  | Act.startDragConnection i => decide (i ∈ nodeIds y.gs)
  | Act.setTetheredNode (some i) => decide (i ∈ nodeIds y.gs)
  | Act.completeConnection t => decide (t ∈ nodeIds y.gs)
  | _ => true

/-- Whether a whole action sequence, run from `y`, passes only
then-current node ids to the connection-building entry points. -/
def idsOkFrom (y : Sys) : List Act → Bool
  | [] => true
  | a :: as => actIdsOk y a && idsOkFrom (step y a) as

/-- The connection-validity invariant: every id in the connection list
— and every stored drag/tether id — is a current node id. -/
def ConnValid (y : Sys) : Prop :=
  (∀ i ∈ connIdList y.gs.connections, i ∈ nodeIds y.gs) ∧
  (∀ i, y.gs.draggingNodeId = some i → i ∈ nodeIds y.gs) ∧
  (∀ i, y.gs.tetheredNodeId = some i → i ∈ nodeIds y.gs)

lemma connIdList_append (cs ds : List (String × String)) :
    connIdList (cs ++ ds) = connIdList cs ++ connIdList ds :=
  List.flatMap_append ..

lemma connValid_step (y : Sys) (a : Act) (ha : actIdsOk y a = true)
    (h : ConnValid y) : ConnValid (step y a) := by
  obtain ⟨hconn, hdrag, htether⟩ := h
  cases a with
  | setCursorWorldPos p => exact ⟨hconn, hdrag, htether⟩
  | setMouseDown b => exact ⟨hconn, hdrag, htether⟩
  | setHoveredNode i => exact ⟨hconn, hdrag, htether⟩
  | setInteractiveHover b => exact ⟨hconn, hdrag, htether⟩
  | updatePlayerPos p => exact ⟨hconn, hdrag, htether⟩
  | advanceNarrative => exact ⟨hconn, hdrag, htether⟩
  | absorbFragment i => exact ⟨hconn, hdrag, htether⟩
  | growPlayer q => exact ⟨hconn, hdrag, htether⟩
  | healLeaf q => exact ⟨hconn, hdrag, htether⟩
  | triggerRain => exact ⟨hconn, hdrag, htether⟩
  | startDragConnection i =>
    refine ⟨hconn, ?_, htether⟩
    intro j hj
    have : i = j := by
      have : (some i : Option String) = some j := hj
      injection this
    subst this
    exact of_decide_eq_true ha
  | cancelDrag =>
    refine ⟨hconn, ?_, htether⟩
    intro j hj
    exact Option.noConfusion hj
  | setTetheredNode i =>
    refine ⟨hconn, hdrag, ?_⟩
    intro j hj
    cases i with
    | none => exact Option.noConfusion hj
    | some i =>
      have : i = j := by
        have : (some i : Option String) = some j := hj
        injection this
      subst this
      exact of_decide_eq_true ha
  | popBubble i rho =>
    simp only [step, onGs, popBubble]
    cases y.gs.envFeatures.find? (fun f => f.id == i) <;>
      exact ⟨hconn, hdrag, htether⟩
  | selectVehicle t =>
    simp only [step, onGs, selectVehicle]
    split <;> exact ⟨hconn, hdrag, htether⟩
  | rainTick =>
    simp only [step, rainTick]
    split
    · exact ⟨hconn, hdrag, htether⟩
    · split
      · exact ⟨hconn, hdrag, htether⟩
      · split <;> exact ⟨hconn, hdrag, htether⟩
  | startLevel l rho =>
    refine ⟨?_, ?_, ?_⟩
    · intro i hi
      have hnil : (step y (Act.startLevel l rho)).gs.connections = [] := rfl
      rw [hnil] at hi
      simp [connIdList] at hi
    · intro j hj
      exact Option.noConfusion hj
    · intro j hj
      exact Option.noConfusion hj
  | resetGame rho =>
    refine ⟨?_, ?_, ?_⟩
    · intro i hi
      have hnil : (step y (Act.resetGame rho)).gs.connections = [] := rfl
      rw [hnil] at hi
      simp [connIdList] at hi
    · intro j hj
      exact Option.noConfusion hj
    · intro j hj
      exact Option.noConfusion hj
  | completeConnection t =>
    rcases completeConnection_cases y.gs t with hc |
      ⟨src, hsrc, hne, hnt, hdup, hok, hc⟩
    · simp only [step, onGs]
      rw [hc]
      refine ⟨hconn, ?_, htether⟩
      intro j hj
      exact Option.noConfusion hj
    · have hsrcmem : src ∈ nodeIds y.gs := by
        unfold resolvedSource at hsrc
        split at hsrc
        · exact htether src hsrc
        · exact hdrag src hsrc
      have htmem : t ∈ nodeIds y.gs := of_decide_eq_true ha
      have hnodes : nodeIds (acceptConnection y.gs src t) = nodeIds y.gs :=
        acceptConnection_nodeIds y.gs src t
      simp only [step, onGs]
      rw [hc]
      refine ⟨?_, ?_, ?_⟩
      · intro i hi
        rw [hnodes]
        have hi' : i ∈ connIdList (y.gs.connections ++ [(src, t)]) := hi
        rw [connIdList_append] at hi'
        rcases List.mem_append.mp hi' with hi2 | hi2
        · exact hconn i hi2
        · simp only [connIdList, List.flatMap_cons, List.flatMap_nil,
            List.append_nil, List.mem_cons, List.not_mem_nil, or_false] at hi2
          rcases hi2 with rfl | rfl
          · exact hsrcmem
          · exact htmem
      · intro j hj
        exact Option.noConfusion hj
      · intro j hj
        rw [hnodes]
        exact htether j hj

lemma connValid_run (y : Sys) (as : List Act)
    (ha : idsOkFrom y as = true) (h : ConnValid y) :
    ConnValid (run y as) := by
  induction as generalizing y with
  | nil => exact h
  | cons a as ih =>
    rw [idsOkFrom, Bool.and_eq_true] at ha
    exact ih (step y a) ha.2 (connValid_step y a ha.1 h)

/-- Claim C6 (amended): provided every id passed to
`startDragConnection`, `setTetheredNode` and `completeConnection` is
present in the then-current node list, every id appearing in any pair
of the connection list is the id of a node in the current level's node
list, at every reachable state; the store itself performs no such
validation, so without the proviso a foreign id can enter the
connection list. -/
theorem C6_theorem (as : List Act) (h : idsOkFrom initSys as = true) :
    ∀ c ∈ (run initSys as).gs.connections,
      c.1 ∈ nodeIds (run initSys as).gs ∧
      c.2 ∈ nodeIds (run initSys as).gs := by
  have h0 : ConnValid initSys := by
    refine ⟨?_, ?_, ?_⟩
    · intro i hi
      simp [connIdList, initSys] at hi
    · intro j hj
      exact Option.noConfusion hj
    · intro j hj
      exact Option.noConfusion hj
  obtain ⟨hconn, _, _⟩ := connValid_run initSys as h h0
  intro c hc
  constructor
  · exact hconn c.1 (List.mem_flatMap.mpr ⟨c, hc, by simp⟩)
  · exact hconn c.2 (List.mem_flatMap.mpr ⟨c, hc, by simp⟩)

/-- Claim C6, counterexample to the claim as stated: on the tether
level, ids never present in the node list can be recorded as a
connection (the store accepts any tether and target id). -/
theorem C6_counterexample :
    (run initSys [Act.startLevel LevelType.CONNECTION (fun _ => 0),
       Act.setTetheredNode (some "x1"),
       Act.completeConnection "x2"]).gs.connections = [("x1", "x2")] ∧
    ("x1" ∉ nodeIds (run initSys [Act.startLevel LevelType.CONNECTION (fun _ => 0),
       Act.setTetheredNode (some "x1"),
       Act.completeConnection "x2"]).gs) := by
  constructor
  · rfl
  · decide

/-- Claim C6, witness. -/
theorem C6_witness :
    ("n2-mid", "n2-low-1").1 ∈
      nodeIds (run initSys [Act.startLevel LevelType.CONNECTION (fun _ => 0),
        Act.setTetheredNode (some "n2-mid"),
        Act.completeConnection "n2-low-1"]).gs ∧
    ("n2-mid", "n2-low-1").2 ∈
      nodeIds (run initSys [Act.startLevel LevelType.CONNECTION (fun _ => 0),
        Act.setTetheredNode (some "n2-mid"),
        Act.completeConnection "n2-low-1"]).gs :=
  C6_theorem [Act.startLevel LevelType.CONNECTION (fun _ => 0),
    Act.setTetheredNode (some "n2-mid"),
    Act.completeConnection "n2-low-1"] (by decide)
    ("n2-mid", "n2-low-1") (by decide)

/-- The five node ids generated for the tether (`CONNECTION`) level. -/
def connectionNodeIds : List String :=
  ["n2-low-1", "n2-low-2", "n2-mid", "n2-high-1", "n2-high-2"]

/-- The coverage completion formula of `completeConnection`: the number
of distinct ids appearing in the connection set is at least the node
count, and the node count is positive. -/
def coverageComplete (s : GameState) : Bool :=
  decide (s.nodes.length ≤ (connIdList s.connections).toFinset.card ∧
          0 < s.nodes.length)

/-- Trace discipline for the tether-level coverage claim: no action
that writes `isLevelComplete` other than `completeConnection` itself,
no restarts, and only the five generated node ids passed to
`setTetheredNode`/`completeConnection`. -/
def connTraceOk : Act → Bool
  | Act.setTetheredNode (some i) => decide (i ∈ connectionNodeIds)
  | Act.setTetheredNode none => true
  | Act.completeConnection t => decide (t ∈ connectionNodeIds)
  | Act.absorbFragment _ => false
  | Act.growPlayer _ => false
  | Act.healLeaf _ => false
  | Act.selectVehicle _ => false
  | Act.rainTick => false
  | Act.startLevel _ _ => false
  | Act.resetGame _ => false
  | _ => true

/-- The tether-level coverage invariant. -/
def ConnCov (y : Sys) : Prop :=
  y.gs.currentLevel = LevelType.CONNECTION ∧
  nodeIds y.gs = connectionNodeIds ∧
  (∀ i ∈ connIdList y.gs.connections, i ∈ connectionNodeIds) ∧
  (∀ i, y.gs.tetheredNodeId = some i → i ∈ connectionNodeIds) ∧
  y.gs.isLevelComplete = coverageComplete y.gs

lemma connCov_start (rho : ℕ → ℚ) (y0 : Sys) :
    ConnCov (step y0 (Act.startLevel LevelType.CONNECTION rho)) := by
  refine ⟨rfl, rfl, ?_, ?_, ?_⟩
  · intro i hi
    have hnil : (step y0 (Act.startLevel LevelType.CONNECTION rho)).gs.connections
        = [] := rfl
    rw [hnil] at hi
    simp [connIdList] at hi
  · intro j hj
    exact Option.noConfusion hj
  · rfl

lemma connCov_step (y : Sys) (a : Act) (ha : connTraceOk a = true)
    (h : ConnCov y) : ConnCov (step y a) := by
  obtain ⟨hlev, hnid, hsub, htet, hcomp⟩ := h
  cases a with
  | setCursorWorldPos p => exact ⟨hlev, hnid, hsub, htet, hcomp⟩
  | setMouseDown b => exact ⟨hlev, hnid, hsub, htet, hcomp⟩
  | setHoveredNode i => exact ⟨hlev, hnid, hsub, htet, hcomp⟩
  | setInteractiveHover b => exact ⟨hlev, hnid, hsub, htet, hcomp⟩
  | startDragConnection i => exact ⟨hlev, hnid, hsub, htet, hcomp⟩
  | cancelDrag => exact ⟨hlev, hnid, hsub, htet, hcomp⟩
  | updatePlayerPos p => exact ⟨hlev, hnid, hsub, htet, hcomp⟩
  | advanceNarrative => exact ⟨hlev, hnid, hsub, htet, hcomp⟩
  | triggerRain => exact ⟨hlev, hnid, hsub, htet, hcomp⟩
  | setTetheredNode i =>
    refine ⟨hlev, hnid, hsub, ?_, hcomp⟩
    intro j hj
    cases i with
    | none => exact Option.noConfusion hj
    | some i =>
      have hij : i = j := by
        have h2 : (some i : Option String) = some j := hj
        injection h2
      subst hij
      exact of_decide_eq_true ha
  | popBubble i rho =>
    simp only [step, onGs, popBubble]
    cases y.gs.envFeatures.find? (fun f => f.id == i) <;>
      exact ⟨hlev, hnid, hsub, htet, hcomp⟩
  | absorbFragment i => simp [connTraceOk] at ha
  | growPlayer q => simp [connTraceOk] at ha
  | healLeaf q => simp [connTraceOk] at ha
  | selectVehicle t => simp [connTraceOk] at ha
  | rainTick => simp [connTraceOk] at ha
  | startLevel l rho => simp [connTraceOk] at ha
  | resetGame rho => simp [connTraceOk] at ha
  | completeConnection t =>
    rcases completeConnection_cases y.gs t with hc |
      ⟨src, hsrc, hne, hnt, hdup, hok, hc⟩
    · simp only [step, onGs]
      rw [hc]
      exact ⟨hlev, hnid, hsub, htet, hcomp⟩
    · have hsrcmem : src ∈ connectionNodeIds := by
        unfold resolvedSource at hsrc
        rw [if_pos hlev] at hsrc
        exact htet src hsrc
      have htmem : t ∈ connectionNodeIds := of_decide_eq_true ha
      have hnodes : nodeIds (acceptConnection y.gs src t) = nodeIds y.gs :=
        acceptConnection_nodeIds y.gs src t
      simp only [step, onGs]
      rw [hc]
      refine ⟨hlev, by rw [hnodes]; exact hnid, ?_, ?_, ?_⟩
      · intro i hi
        have hi' : i ∈ connIdList (y.gs.connections ++ [(src, t)]) := hi
        rw [connIdList_append] at hi'
        rcases List.mem_append.mp hi' with hi2 | hi2
        · exact hsub i hi2
        · simp only [connIdList, List.flatMap_cons, List.flatMap_nil,
            List.append_nil, List.mem_cons, List.not_mem_nil, or_false] at hi2
          rcases hi2 with rfl | rfl
          · exact hsrcmem
          · exact htmem
      · intro j hj
        exact htet j hj
      · show (acceptConnection y.gs src t).isLevelComplete =
          coverageComplete (acceptConnection y.gs src t)
        unfold coverageComplete acceptConnection
        dsimp only
        rw [List.length_map]

lemma connCov_run (y : Sys) (as : List Act)
    (ha : ∀ a ∈ as, connTraceOk a = true) (h : ConnCov y) :
    ConnCov (run y as) := by
  induction as generalizing y with
  | nil => exact h
  | cons a as ih =>
    exact ih (step y a) (fun b hb => ha b (List.mem_cons_of_mem a hb))
      (connCov_step y a (ha a (List.mem_cons_self a as)) h)

/-- Claim C2 (amended): at every accepted connection,
`completeConnection` sets `isLevelComplete` exactly when the number of
distinct ids appearing in any edge of the new connection set (whether
or not they are node ids) is at least the node count and the node
count is positive — coverage, not connectivity; and for the tether
level's 5 generated nodes, provided only those 5 ids are ever passed
to the tether/connection entry points and no other completion-writing
mechanic runs, `isLevelComplete` is true exactly when every one of the
5 ids appears in at least one edge, even if the edge set forms
multiple disconnected components.  Without the id proviso, edges over
foreign ids also count towards coverage. -/
theorem C2_theorem :
    (∀ (y : Sys) (t : String),
       (step y (Act.completeConnection t)).gs.connections ≠
         y.gs.connections →
       (step y (Act.completeConnection t)).gs.isLevelComplete =
         decide (y.gs.nodes.length ≤
           (connIdList
             (step y (Act.completeConnection t)).gs.connections).toFinset.card ∧
           0 < y.gs.nodes.length)) ∧
    (∀ (rho : ℕ → ℚ) (y0 : Sys) (as : List Act),
       (∀ a ∈ as, connTraceOk a = true) →
       ((run (step y0 (Act.startLevel LevelType.CONNECTION rho)) as).gs.isLevelComplete
           = true ↔
        ∀ i ∈ connectionNodeIds,
          i ∈ connIdList
            (run (step y0 (Act.startLevel LevelType.CONNECTION rho)) as).gs.connections)) := by
  constructor
  · intro y t hne
    rcases completeConnection_cases y.gs t with hc |
      ⟨src, hsrc, _, _, _, _, hc⟩
    · exfalso
      apply hne
      show (completeConnection t y.gs).connections = y.gs.connections
      rw [hc]
      rfl
    · show (completeConnection t y.gs).isLevelComplete =
        decide (y.gs.nodes.length ≤
          (connIdList (completeConnection t y.gs).connections).toFinset.card ∧
          0 < y.gs.nodes.length)
      rw [hc]
      rfl
  · intro rho y0 as ha
    obtain ⟨hlev, hnid, hsub, htet, hcomp⟩ :=
      connCov_run _ as ha (connCov_start rho y0)
    have h5 : (run (step y0 (Act.startLevel LevelType.CONNECTION rho)) as).gs.nodes.length
        = 5 := by
      have hlen := congrArg List.length hnid
      simpa [nodeIds] using hlen
    have hcardS : connectionNodeIds.toFinset.card = 5 := by decide
    rw [hcomp]
    unfold coverageComplete
    rw [h5]
    constructor
    · intro h
      obtain ⟨hcard, _⟩ := of_decide_eq_true h
      have hsubF : (connIdList
          (run (step y0 (Act.startLevel LevelType.CONNECTION rho)) as).gs.connections).toFinset
          ⊆ connectionNodeIds.toFinset := by
        intro x hx
        rw [List.mem_toFinset] at hx ⊢
        exact hsub x hx
      have heq := Finset.eq_of_subset_of_card_le hsubF (by rw [hcardS]; exact hcard)
      intro i hi
      have hmem : i ∈ (connIdList
          (run (step y0 (Act.startLevel LevelType.CONNECTION rho)) as).gs.connections).toFinset := by
        rw [heq, List.mem_toFinset]
        exact hi
      rwa [List.mem_toFinset] at hmem
    · intro h
      apply decide_eq_true
      refine ⟨?_, by norm_num⟩
      have hsubF : connectionNodeIds.toFinset ⊆ (connIdList
          (run (step y0 (Act.startLevel LevelType.CONNECTION rho)) as).gs.connections).toFinset := by
        intro x hx
        rw [List.mem_toFinset] at hx ⊢
        exact h x hx
      calc (5:ℕ) = connectionNodeIds.toFinset.card := hcardS.symm
        _ ≤ _ := Finset.card_le_card hsubF

/-- Claim C2, counterexample to the claim as stated: six foreign ids
(never node ids) reach coverage on the tether level, so completion
becomes true although none of the 5 generated node ids appears in any
edge. -/
theorem C2_counterexample :
    (run initSys [Act.startLevel LevelType.CONNECTION (fun _ => 0),
       Act.setTetheredNode (some "x1"), Act.completeConnection "x2",
       Act.setTetheredNode (some "x3"), Act.completeConnection "x4",
       Act.setTetheredNode (some "x5"),
       Act.completeConnection "x6"]).gs.isLevelComplete = true ∧
    ∀ i ∈ connectionNodeIds,
      i ∉ connIdList (run initSys [Act.startLevel LevelType.CONNECTION (fun _ => 0),
        Act.setTetheredNode (some "x1"), Act.completeConnection "x2",
        Act.setTetheredNode (some "x3"), Act.completeConnection "x4",
        Act.setTetheredNode (some "x5"),
        Act.completeConnection "x6"]).gs.connections := by
  constructor
  · decide
  · decide

/-- Claim C2, witness: a disconnected two-component edge set that
touches all five tether-level nodes completes the level. -/
theorem C2_witness :
    (run (step initSys (Act.startLevel LevelType.CONNECTION (fun _ => 0)))
       [Act.setTetheredNode (some "n2-low-1"), Act.completeConnection "n2-low-2",
        Act.setTetheredNode (some "n2-high-1"), Act.completeConnection "n2-high-2",
        Act.setTetheredNode (some "n2-mid"),
        Act.completeConnection "n2-low-1"]).gs.isLevelComplete = true ↔
    ∀ i ∈ connectionNodeIds,
      i ∈ connIdList (run (step initSys (Act.startLevel LevelType.CONNECTION (fun _ => 0)))
        [Act.setTetheredNode (some "n2-low-1"), Act.completeConnection "n2-low-2",
         Act.setTetheredNode (some "n2-high-1"), Act.completeConnection "n2-high-2",
         Act.setTetheredNode (some "n2-mid"),
         Act.completeConnection "n2-low-1"]).gs.connections :=
  C2_theorem.2 (fun _ => 0) initSys
    [Act.setTetheredNode (some "n2-low-1"), Act.completeConnection "n2-low-2",
     Act.setTetheredNode (some "n2-high-1"), Act.completeConnection "n2-high-2",
     Act.setTetheredNode (some "n2-mid"), Act.completeConnection "n2-low-1"]
    (by decide)

/-- `k` firings of the rain interval callback. -/
def tickN (k : ℕ) (y : Sys) : Sys := (fun z => step z Act.rainTick)^[k] y

/-- The system state after `k` rain ticks of a sequence started by
`triggerRain` on a level whose rain level was 0: the level has risen
to `k * 0.04`, the interval is live, and the extinguish notification
has fired exactly once as soon as the level first exceeded 6. -/
def RainInv (y0 y : Sys) (k : ℕ) : Prop :=
  y.gs = { y0.gs with
           isRaining := true
           isInteractiveHover := false
           rainLevel := (k : ℚ) / 25 } ∧
  y.rainActive = true ∧
  y.rainLatch = decide (151 ≤ k) ∧
  y.extinguishCount = y0.extinguishCount + (if 151 ≤ k then 1 else 0)

lemma rainInv_start (y0 : Sys) (h0 : y0.gs.rainLevel = 0) :
    RainInv y0 (step y0 Act.triggerRain) 0 := by
  unfold RainInv
  refine ⟨?_, rfl, by simp [step, triggerRain], by simp [step, triggerRain]⟩
  ext <;> simp [step, triggerRain, h0]

lemma rainInv_step (y0 y : Sys) (k : ℕ) (hk : k < 500)
    (h : RainInv y0 y k) : RainInv y0 (step y Act.rainTick) (k + 1) := by
  obtain ⟨hgs, hact, hlat, hcnt⟩ := h
  have hlevel : y.gs.rainLevel = (k : ℚ) / 25 := by rw [hgs]
  have hstop : ¬ (20 : ℚ) ≤ y.gs.rainLevel := by
    rw [hlevel, rain_level_ge20]
    omega
  have hactf : ¬ (y.rainActive = false) := by
    rw [hact]
    simp
  have harith : (k : ℚ) / 25 + 1 / 25 = ((k + 1 : ℕ) : ℚ) / 25 := by
    push_cast
    ring
  have hnext : y.gs.rainLevel + 1 / 25 = ((k + 1 : ℕ) : ℚ) / 25 := by
    rw [hlevel, harith]
  show RainInv y0 (rainTick y) (k + 1)
  unfold rainTick
  rw [if_neg hactf, if_neg hstop]
  by_cases hc : y.rainLatch = false ∧ (6 : ℚ) < y.gs.rainLevel + 1 / 25
  · rw [if_pos hc]
    have hnot151 : ¬ 151 ≤ k := by
      intro hge
      rw [hlat] at hc
      simp [hge] at hc
    have h151 : 151 ≤ k + 1 := by
      have h6 := hc.2
      rw [hnext] at h6
      exact (rain_level_gt6 (k + 1)).mp h6
    refine ⟨?_, hact, ?_, ?_⟩
    · show { y.gs with rainLevel := y.gs.rainLevel + 1 / 25 } =
        { y0.gs with
          isRaining := true
          isInteractiveHover := false
          rainLevel := ((k + 1 : ℕ) : ℚ) / 25 }
      rw [hgs]
      ext <;> simp [harith]
      ring
    · show true = decide (151 ≤ k + 1)
      simp [h151]
    · show y.extinguishCount + 1 =
        y0.extinguishCount + (if 151 ≤ k + 1 then 1 else 0)
      rw [hcnt, if_neg hnot151, if_pos h151]
  · rw [if_neg hc]
    have hiff : (151 ≤ k + 1) ↔ (151 ≤ k) := by
      rcases Nat.lt_or_ge k 151 with hlt | hge
      · have hlatf : y.rainLatch = false := by
          rw [hlat]
          simp
          omega
        have h6 : ¬ (6 : ℚ) < y.gs.rainLevel + 1 / 25 := by
          intro h6'
          exact hc ⟨hlatf, h6'⟩
        rw [hnext] at h6
        have hn151 : ¬ 151 ≤ k + 1 :=
          fun hge => h6 ((rain_level_gt6 (k + 1)).mpr hge)
        omega
      · constructor <;> intro _ <;> omega
    refine ⟨?_, hact, ?_, ?_⟩
    · show { y.gs with rainLevel := y.gs.rainLevel + 1 / 25 } =
        { y0.gs with
          isRaining := true
          isInteractiveHover := false
          rainLevel := ((k + 1 : ℕ) : ℚ) / 25 }
      rw [hgs]
      ext <;> simp [harith]
      ring
    · show y.rainLatch = decide (151 ≤ k + 1)
      rw [hlat]
      exact decide_eq_decide.mpr hiff.symm
    · show y.extinguishCount =
        y0.extinguishCount + (if 151 ≤ k + 1 then 1 else 0)
      rw [hcnt]
      congr 1
      exact if_congr hiff.symm rfl rfl

lemma rainInv_iter (y0 : Sys) (h0 : y0.gs.rainLevel = 0) :
    ∀ k, k ≤ 500 → RainInv y0 (tickN k (step y0 Act.triggerRain)) k := by
  intro k
  induction k with
  | zero => intro _; exact rainInv_start y0 h0
  | succ n ih =>
    intro hle
    show RainInv y0
      ((fun z => step z Act.rainTick)^[n + 1] (step y0 Act.triggerRain)) (n + 1)
    rw [Function.iterate_succ_apply']
    exact rainInv_step y0 (tickN n (step y0 Act.triggerRain)) n (by omega)
      (ih (by omega))

lemma rain_stop (y0 : Sys) (h0 : y0.gs.rainLevel = 0) :
    (tickN 501 (step y0 Act.triggerRain)).rainActive = false ∧
    (tickN 501 (step y0 Act.triggerRain)).gs.isLevelComplete = true ∧
    (tickN 501 (step y0 Act.triggerRain)).gs.narrativeIndex = 1 ∧
    (tickN 501 (step y0 Act.triggerRain)).gs.rainLevel = 20 ∧
    (tickN 501 (step y0 Act.triggerRain)).extinguishCount =
      y0.extinguishCount + 1 := by
  obtain ⟨hgs, hact, hlat, hcnt⟩ := rainInv_iter y0 h0 500 (by omega)
  have h20 : (tickN 500 (step y0 Act.triggerRain)).gs.rainLevel = 20 := by
    rw [hgs]
    norm_num
  have hstep : tickN 501 (step y0 Act.triggerRain) =
      rainTick (tickN 500 (step y0 Act.triggerRain)) := by
    show (fun z => step z Act.rainTick)^[500 + 1] (step y0 Act.triggerRain) = _
    rw [Function.iterate_succ_apply']
    rfl
  set z := tickN 500 (step y0 Act.triggerRain) with hz
  clear_value z
  have hactf : ¬ (z.rainActive = false) := by
    rw [hact]
    simp
  have hge : (20:ℚ) ≤ z.gs.rainLevel := by rw [h20]
  have hrt : rainTick z =
      { z with
        rainActive := false
        gs := { z.gs with isLevelComplete := true, narrativeIndex := 1 } } := by
    unfold rainTick
    rw [if_neg hactf, if_pos hge]
  rw [hstep, hrt]
  refine ⟨rfl, rfl, rfl, ?_, ?_⟩
  · show z.gs.rainLevel = 20
    exact h20
  · show z.extinguishCount = y0.extinguishCount + 1
    rw [hcnt]
    norm_num

lemma rainTick_inactive (y : Sys) (h : y.rainActive = false) :
    step y Act.rainTick = y := by
  show rainTick y = y
  unfold rainTick
  rw [if_pos h]

lemma tickN_after_stop (y0 : Sys) (h0 : y0.gs.rainLevel = 0) :
    ∀ m, tickN (501 + m) (step y0 Act.triggerRain) =
      tickN 501 (step y0 Act.triggerRain) := by
  intro m
  induction m with
  | zero => rfl
  | succ n ih =>
    have hsum : 501 + (n + 1) = (501 + n) + 1 := by omega
    rw [hsum]
    show (fun z => step z Act.rainTick)^[(501 + n) + 1]
      (step y0 Act.triggerRain) = _
    rw [Function.iterate_succ_apply']
    show step (tickN (501 + n) (step y0 Act.triggerRain)) Act.rainTick = _
    rw [ih]
    exact rainTick_inactive _ (rain_stop y0 h0).1

/-- Once `rainLevel` has reached 20, no non-restart operation changes
it or fires another extinguish notification. -/
lemma rain20_step (y : Sys) (a : Act) (hr : isRestart a = false)
    (h : y.gs.rainLevel = 20) :
    (step y a).gs.rainLevel = 20 ∧
    (step y a).extinguishCount = y.extinguishCount := by
  cases a with
  | setCursorWorldPos p => exact ⟨h, rfl⟩
  | setMouseDown b => exact ⟨h, rfl⟩
  | setHoveredNode i => exact ⟨h, rfl⟩
  | setInteractiveHover b => exact ⟨h, rfl⟩
  | startDragConnection i => exact ⟨h, rfl⟩
  | cancelDrag => exact ⟨h, rfl⟩
  | setTetheredNode i => exact ⟨h, rfl⟩
  | updatePlayerPos p => exact ⟨h, rfl⟩
  | advanceNarrative => exact ⟨h, rfl⟩
  | absorbFragment i => exact ⟨h, rfl⟩
  | growPlayer q => exact ⟨h, rfl⟩
  | healLeaf q => exact ⟨h, rfl⟩
  | triggerRain => exact ⟨h, rfl⟩
  | popBubble i rho =>
    simp only [step, onGs, popBubble]
    cases y.gs.envFeatures.find? (fun f => f.id == i) <;> exact ⟨h, by trivial⟩
  | selectVehicle t =>
    simp only [step, onGs, selectVehicle]
    split <;> exact ⟨h, by trivial⟩
  | rainTick =>
    simp only [step, rainTick]
    split
    · exact ⟨h, by trivial⟩
    · split
      · exact ⟨h, by trivial⟩
      · rename_i h1 h2
        exfalso
        rw [h] at h2
        exact h2 le_rfl
  | completeConnection t =>
    rcases completeConnection_cases y.gs t with hc |
      ⟨src, _, _, _, _, _, hc⟩ <;>
      · refine ⟨?_, rfl⟩
        show (completeConnection t y.gs).rainLevel = 20
        rw [hc]
        exact h
  | startLevel l rho => simp [isRestart] at hr
  | resetGame rho => simp [isRestart] at hr

lemma rain20_run (y : Sys) (as : List Act)
    (hr : ∀ a ∈ as, isRestart a = false) (h : y.gs.rainLevel = 20) :
    (run y as).gs.rainLevel = 20 ∧
    (run y as).extinguishCount = y.extinguishCount := by
  induction as generalizing y with
  | nil => exact ⟨h, rfl⟩
  | cons a as ih =>
    obtain ⟨h1, h2⟩ := rain20_step y a (hr a (List.mem_cons_self a as)) h
    obtain ⟨g1, g2⟩ :=
      ih (step y a) (fun b hb => hr b (List.mem_cons_of_mem a hb)) h1
    exact ⟨g1, g2.trans h2⟩

/-- Claim C9 (confirmed, over the exact-rational model of JavaScript
numbers): after `triggerRain()`, `isRaining` is true and each firing of
the started interval raises `rainLevel` by exactly `0.04 = 1/25`; after
`k <= 500` ticks the level is `k/25` and the extinguish notification
has fired exactly once as soon as the level first exceeded 6 (at tick
151) and never again; the 501st tick observes `rainLevel = 20 >= 20`,
stops the interval permanently and sets `isLevelComplete` with
`narrativeIndex` at its post-completion value 1; all further ticks are
no-ops, and no non-restart operation ever changes `rainLevel` or fires
another extinguish notification afterwards. -/
theorem C9_theorem (y0 : Sys) (h0 : y0.gs.rainLevel = 0) :
    (step y0 Act.triggerRain).gs.isRaining = true ∧
    (∀ k, k ≤ 500 →
       (tickN k (step y0 Act.triggerRain)).gs.rainLevel = (k : ℚ) / 25 ∧
       (tickN k (step y0 Act.triggerRain)).extinguishCount =
         y0.extinguishCount + (if 151 ≤ k then 1 else 0)) ∧
    ((tickN 501 (step y0 Act.triggerRain)).rainActive = false ∧
     (tickN 501 (step y0 Act.triggerRain)).gs.isLevelComplete = true ∧
     (tickN 501 (step y0 Act.triggerRain)).gs.narrativeIndex = 1 ∧
     (tickN 501 (step y0 Act.triggerRain)).gs.rainLevel = 20 ∧
     (tickN 501 (step y0 Act.triggerRain)).extinguishCount =
       y0.extinguishCount + 1) ∧
    (∀ m, tickN (501 + m) (step y0 Act.triggerRain) =
       tickN 501 (step y0 Act.triggerRain)) ∧
    (∀ as, (∀ a ∈ as, isRestart a = false) →
       (run (tickN 501 (step y0 Act.triggerRain)) as).gs.rainLevel = 20 ∧
       (run (tickN 501 (step y0 Act.triggerRain)) as).extinguishCount =
         y0.extinguishCount + 1) := by
  refine ⟨rfl, ?_, rain_stop y0 h0, tickN_after_stop y0 h0, ?_⟩
  · intro k hk
    obtain ⟨hgs, _, _, hcnt⟩ := rainInv_iter y0 h0 k hk
    constructor
    · rw [hgs]
    · exact hcnt
  · intro as hr
    obtain ⟨h1, h2⟩ :=
      rain20_run (tickN 501 (step y0 Act.triggerRain)) as hr
        (rain_stop y0 h0).2.2.2.1
    exact ⟨h1, by rw [h2, (rain_stop y0 h0).2.2.2.2]⟩

/-- Claim C9, witness. -/
theorem C9_witness :
    (tickN 151 (step initSys Act.triggerRain)).gs.rainLevel = (151 : ℚ) / 25 ∧
    (tickN 151 (step initSys Act.triggerRain)).extinguishCount =
      initSys.extinguishCount + (if 151 ≤ 151 then 1 else 0) :=
  (C9_theorem initSys rfl).2.1 151 (by norm_num)

end LiquidLeft
